import Mathlib

/-!
Shallow embedding of the physics/collision core of the CS1666 infinite-runner
game (`src/physics.rs`), together with proofs settling the frozen claims about
its specification.

Modelling conventions:
* Rust `i32` values are modelled as `Int`.  All claim-relevant computations
  stay far inside the `i32` range; wrap-around is not exercised by any input
  considered here, and where a claim is about overflow the bounds are stated
  explicitly.
* Rust `f64` values are modelled as `ℚ` (exact rational arithmetic).  Every
  floating-point literal of the source (`1.5`, `0.05`, `0.2`, ...) is carried
  exactly.  `NaN` and signed zero do not arise for the inputs considered.
* Rust integer division `/` truncates toward zero, which is `Int.tdiv`.
* Rust `as i32` casts of `f64` values truncate toward zero and saturate at the
  `i32` bounds; this is `i32cast` below.
* The source computes `angle.sin()` / `angle.cos()`; since real trigonometric
  functions are not rational, functions that consume an angle only through its
  sine and cosine take those two values as explicit parameters (named `sinA`,
  `cosA` or `s`, `c`), standing for `sin angle` and `cos angle`.
-/

namespace InfRunner

/-- Obstacle type tags, from the `inf_runner` crate (used by `physics.rs`). -/
inductive ObstacleType
  | Statue
  | Chest
  | Balloon
deriving DecidableEq

/-- Power-up type tags, from the `inf_runner` crate. -/
inductive PowerType
  | SpeedBoost
  | ScoreMultiplier
  | BouncyShoes
  | LowerGravity
  | Shield
deriving DecidableEq

/-- Terrain material tags, from the `inf_runner` crate. -/
inductive TerrainType
  | Asphalt
  | Grass
  | Sand
  | Water
deriving DecidableEq

/-- Constant `LOWER_SPEED: f64 = -5.0` from `physics.rs`. -/
def LOWER_SPEED : ℚ := -5

/-- Constant `UPPER_SPEED: f64 = 8.0` from `physics.rs`. -/
def UPPER_SPEED : ℚ := 8

/-- Constant `TILE_SIZE: u32 = 100` from `runner.rs`, used as `f64` in `physics.rs`. -/
def TILE_SIZE : ℚ := 100

/-- Source `max_int_value(): u32 = i32::max_value() as u32 / 2` (= 1073741823). -/
def max_int_value : Int := 1073741823

/-- Source `min_int_value(): i32 = i32::min_value() / 2` (= -1073741824). -/
def min_int_value : Int := -1073741824

/-- Largest `i32` value. -/
def i32max : Int := 2147483647

/-- Smallest `i32` value. -/
def i32min : Int := -2147483648

/-- Source `clamp_size(val: u32)`: zero becomes 1, values above
`max_int_value()` are clamped down to it. -/
def clamp_size (val : Nat) : Nat :=
  if val = 0 then 1
  else if 1073741823 < val then 1073741823
  else val

/-- Source `clamp_position(val: i32)`: clamps into
`[min_int_value(), max_int_value()]`. -/
def clamp_position (val : Int) : Int :=
  if max_int_value < val then max_int_value
  else if val < min_int_value then min_int_value
  else val

/-- Rust release-mode `i32` arithmetic wraps on overflow: reduce into
`[-2^31, 2^31)` (two's-complement wrap-around). -/
def wrap32 (n : Int) : Int :=
  (n + 2147483648) % 4294967296 - 2147483648

/-- Saturating `i32` addition: sdl2's `Point::offset` adds with
`checked_add` and substitutes `i32::min_value()` / `i32::max_value()` on
overflow, according to the sign of the summand. -/
def satAdd32 (a b : Int) : Int :=
  if i32min ≤ a + b ∧ a + b ≤ i32max then a + b
  else if b < 0 then i32min else i32max

/-- Rust `f64 as i32` cast: truncation toward zero, saturating at the `i32`
bounds.  On `ℚ` truncation toward zero is `num.tdiv den`. -/
def i32cast (q : ℚ) : Int :=
  let t := q.num.tdiv (q.den : Int)
  if t < i32min then i32min
  else if i32max < t then i32max
  else t

/-- The point type of `sdl2::rect::Point`: a pair of `i32` coordinates. -/
structure Point where
  x : Int
  y : Int
deriving DecidableEq

/-- Constructor `Point::new(x, y)` of the sdl2 crate: both coordinates are
clamped into `[min_int_value(), max_int_value()]`. -/
def Point.new (x y : Int) : Point :=
  ⟨clamp_position x, clamp_position y⟩

/-- Point offset, `Point::offset(self, x, y)` of the sdl2 crate: each
coordinate is added with `checked_add` saturating at the `i32` bounds, and
the result re-clamped through `Point::new`. -/
def Point.offset (p : Point) (dx dy : Int) : Point :=
  Point.new (satAdd32 p.x dx) (satAdd32 p.y dy)

/-- The rotated-rectangle collision primitive `PhysRect` from `physics.rs`.
The four corners `coords[0] .. coords[3]` of the source array are the fields
`p0 .. p3`. -/
structure PhysRect where
  x : Int
  y : Int
  w : Int
  h : Int
  theta : ℚ
  p0 : Point
  p1 : Point
  p2 : Point
  p3 : Point
deriving DecidableEq

namespace PhysRect

/-- Source `PhysRect::new(x, y, width, height)`: clamps the inputs and lays
out the four corners of an axis-aligned rectangle, `theta = 0`. -/
def new (x y : Int) (width height : Nat) : PhysRect :=
  let x := clamp_position x
  let y := clamp_position y
  let w : Int := clamp_size width
  let h : Int := clamp_size height
  { x := x, y := y, w := w, h := h, theta := 0
    p0 := Point.new x y, p1 := Point.new (x + w) y
    p2 := Point.new (x + w) (y + h), p3 := Point.new x (y + h) }

/-- Source `width()` (returns `w as u32`; modelled as the stored `Int`). -/
def width (r : PhysRect) : Int := r.w

/-- Source `height()`. -/
def height (r : PhysRect) : Int := r.h

/-- Source `angle()`. -/
def angle (r : PhysRect) : ℚ := r.theta

/-- Source `center()`: `Point::new((coords[0].x + coords[2].x) / 2, (coords[0].y + coords[2].y) / 2)`
with Rust `/` truncating toward zero. -/
def center (r : PhysRect) : Point :=
  Point.new ((r.p0.x + r.p2.x).tdiv 2) ((r.p0.y + r.p2.y).tdiv 2)

/-- Source `bottom()`: starts from `coords[0]` and takes any corner whose `y`
is `<=` the current candidate.  Note the comparison direction: this selects a
corner with minimal `y`, exactly as written in the source (which therefore
returns a topmost corner, not a bottom-most one; compare `top()`). -/
def bottom (r : PhysRect) : Point :=
  let b := r.p0
  let b := if r.p0.y ≤ b.y then r.p0 else b
  let b := if r.p1.y ≤ b.y then r.p1 else b
  let b := if r.p2.y ≤ b.y then r.p2 else b
  if r.p3.y ≤ b.y then r.p3 else b

/-- Source `top()`: corner with minimal `y` (comparisons `<=` as written). -/
def top (r : PhysRect) : Point :=
  let t := r.p0
  let t := if r.p0.y ≤ t.y then r.p0 else t
  let t := if r.p1.y ≤ t.y then r.p1 else t
  let t := if r.p2.y ≤ t.y then r.p2 else t
  if r.p3.y ≤ t.y then r.p3 else t

/-- Source `set_x(x)`: the delta `x - self.x()` is raw `i32` subtraction
(it wraps for extreme arguments, hence `wrap32`), the stored `x` is clamped,
and all four corners shift by the delta through `Point::offset`. -/
def set_x (r : PhysRect) (x : Int) : PhysRect :=
  let d := wrap32 (x - r.x)
  { r with x := clamp_position x
           p0 := r.p0.offset d 0, p1 := r.p1.offset d 0
           p2 := r.p2.offset d 0, p3 := r.p3.offset d 0 }

/-- Source `set_y(y)`. -/
def set_y (r : PhysRect) (y : Int) : PhysRect :=
  let d := wrap32 (y - r.y)
  { r with y := clamp_position y
           p0 := r.p0.offset 0 d, p1 := r.p1.offset 0 d
           p2 := r.p2.offset 0 d, p3 := r.p3.offset 0 d }

/-- Source `set_height(height)`: sets only the `h` field; the corner array is
not touched (as written in the source). -/
def set_height (r : PhysRect) (height : Nat) : PhysRect :=
  { r with h := clamp_size height }

/-- Source `center_on(point)`: computes the deltas, but the loop
`for p in self.coords { p.offset(d_x, d_y); }` iterates over copies and
discards each returned point, so the corner array is unchanged; afterwards
`x` and `y` are overwritten from corner 0. -/
def center_on (r : PhysRect) (px py : Int) : PhysRect :=
  let _dx := clamp_position px - r.center.x
  let _dy := clamp_position py - r.center.y
  { r with x := r.p0.x, y := r.p0.y }

/-- Source `offset(x, y)`: each reference coordinate is updated with
`checked_add`; the `Some` branch clamps, while the overflow branch stores
`max_int_value()` for a nonnegative delta but `i32::min_value()` (not the
clamp bound) for a negative one, exactly as written.  The corner deltas are
then raw `i32` subtractions (hence `wrap32`), with `d_y` computed from
`old_x` as in the source, and the corners shifted through `Point::offset`. -/
def offset (r : PhysRect) (x y : Int) : PhysRect :=
  let old_x := r.x
  let _old_y := r.y
  let nx := if i32min ≤ r.x + x ∧ r.x + x ≤ i32max then clamp_position (r.x + x)
    else if x ≥ 0 then max_int_value else i32min
  let ny := if i32min ≤ r.y + y ∧ r.y + y ≤ i32max then clamp_position (r.y + y)
    else if y ≥ 0 then max_int_value else i32min
  let d_x := wrap32 (old_x - nx)
  let d_y := wrap32 (old_x - ny)
  { r with x := nx, y := ny
           p0 := r.p0.offset d_x d_y, p1 := r.p1.offset d_x d_y
           p2 := r.p2.offset d_x d_y, p3 := r.p3.offset d_x d_y }

/-- Source `rotate(theta)`: rotates the four corners about the current center
by the standard 2-D rotation matrix, casting each new coordinate back to `i32`
(`as i32`, i.e. truncation), then stores the rotation argument itself into
`theta` (`self.theta = theta` — no accumulation and no modular reduction, as
written in the source) and recomputes `x`, `y` from corner 0.  `s`/`c` stand
for `theta.sin()` / `theta.cos()`. -/
def rotate (r : PhysRect) (theta s c : ℚ) : PhysRect :=
  let cen := r.center
  let rot : Point → Point := fun p =>
    Point.new
      (i32cast (c * ((p.x : ℚ) - (cen.x : ℚ)) - s * ((p.y : ℚ) - (cen.y : ℚ)) + (cen.x : ℚ)))
      (i32cast (s * ((p.x : ℚ) - (cen.x : ℚ)) + c * ((p.y : ℚ) - (cen.y : ℚ)) + (cen.y : ℚ)))
  let q0 := rot r.p0
  let q1 := rot r.p1
  let q2 := rot r.p2
  let q3 := rot r.p3
  { r with p0 := q0, p1 := q1, p2 := q2, p3 := q3, theta := theta, x := q0.x, y := q0.y }

/-- One edge step of the even-odd ray-casting loop in `contains_point`: edge
from corner `a` (index `i`) to corner `b` (index `j`), accumulator `c`.
Rust `&&` short-circuits, so the division only happens under the first
conjunct. -/
def cpStep (px py : Int) (a b : Point) (c : Bool) : Bool :=
  if (decide (a.y > py) != decide (b.y > py))
      && decide (px < ((b.x - a.x) * (py - a.y)).tdiv (b.y - a.y) + a.x) then
    !c
  else c

/-- Source `contains_point(point)`: even-odd rule over the four edges; the
index pairs `(i, j)` visited are `(0,3), (1,0), (2,1), (3,2)`. -/
def contains_point (r : PhysRect) (px py : Int) : Bool :=
  let c := false
  let c := cpStep px py r.p0 r.p3 c
  let c := cpStep px py r.p1 r.p0 c
  let c := cpStep px py r.p2 r.p1 c
  cpStep px py r.p3 r.p2 c

/-- Variant of `cpStep` that reports a division by zero (`none`) instead of
evaluating the guarded integer division, used to state that the zero-divisor
branch of `contains_point` is unreachable. -/
def cpStepChecked (px py : Int) (a b : Point) (c : Bool) : Option Bool :=
  if (decide (a.y > py) != decide (b.y > py)) then
    if b.y - a.y = 0 then none
    else some (if px < ((b.x - a.x) * (py - a.y)).tdiv (b.y - a.y) + a.x then !c else c)
  else some c

/-- Division-by-zero-checked version of `contains_point`: `none` exactly when
the source would divide by zero on some edge. -/
def contains_point_checked (r : PhysRect) (px py : Int) : Option Bool :=
  (cpStepChecked px py r.p0 r.p3 false).bind fun c =>
    (cpStepChecked px py r.p1 r.p0 c).bind fun c =>
      (cpStepChecked px py r.p2 r.p1 c).bind fun c =>
        cpStepChecked px py r.p3 r.p2 c

/-- Source `has_intersection(other)`: true iff some corner of one rectangle is
contained in the other (tested in source order; early return is equivalent to
boolean disjunction). -/
def has_intersection (r other : PhysRect) : Bool :=
  r.contains_point other.p0.x other.p0.y || r.contains_point other.p1.x other.p1.y
    || r.contains_point other.p2.x other.p2.y || r.contains_point other.p3.x other.p3.y
    || other.contains_point r.p0.x r.p0.y || other.contains_point r.p1.x r.p1.y
    || other.contains_point r.p2.x r.p2.y || other.contains_point r.p3.x r.p3.y

/-- Squared Euclidean distance between two points (exact, in `Int`). -/
def distSq (a b : Point) : Int :=
  (a.x - b.x) * (a.x - b.x) + (a.y - b.y) * (a.y - b.y)

/-- Midpoint of two points: `Point::new((a.x + b.x) / 2, (a.y + b.y) / 2)`,
Rust integer division (toward zero). -/
def midpoint2 (a b : Point) : Point :=
  Point.new ((a.x + b.x).tdiv 2) ((a.y + b.y).tdiv 2)

/-- Source `nearest_side(other)`: midpoints of `other`'s sides are collected in
index order `(0,3), (1,0), (2,1), (3,2)`; then for every corner index `i` of
`self` and every midpoint, the tracked minimum is updated whenever
`dist <= min_dist`, and the final value of `min_side` (the last such corner
index `i`) is returned.  The source compares Euclidean `f64` distances starting
from `min_dist = f64::MAX`; we track squared distances exactly (with `none`
standing for the initial `f64::MAX`, which every actual distance is below).
Square-root is strictly monotone, so the `<=` comparisons agree. -/
def nearest_side (r other : PhysRect) : Int :=
  let mids := [midpoint2 other.p0 other.p3, midpoint2 other.p1 other.p0,
               midpoint2 other.p2 other.p1, midpoint2 other.p3 other.p2]
  let corners := [(r.p0, (0 : Int)), (r.p1, 1), (r.p2, 2), (r.p3, 3)]
  let best := corners.foldl
    (fun acc ci =>
      mids.foldl
        (fun acc2 m =>
          let d := distSq ci.1 m
          match acc2.1 with
          | none => (some d, ci.2)
          | some md => if d ≤ md then (some d, ci.2) else acc2)
        acc)
    ((none : Option Int), (0 : Int))
  best.2

end PhysRect

/-- The `Player` struct of `physics.rs`.  The rendering-only fields
(`drawbox`, `texture`) and the wall-clock field `jump_time : SystemTime` are
not part of the physical state and are omitted; every field read or written by
the embedded operations is present. -/
structure Player where
  pos : ℚ × ℚ
  velocity : ℚ × ℚ
  accel : ℚ × ℚ
  hitbox : PhysRect
  theta : ℚ
  omega : ℚ
  mass : ℚ
  power_up : Option PowerType
  jumping : Bool
  lock_jump_time : Bool
  flipping : Bool
  second_jump : Bool
deriving DecidableEq

/-- The `Obstacle` struct of `physics.rs` (texture omitted). -/
structure Obstacle where
  pos : ℚ × ℚ
  velocity : ℚ × ℚ
  accel : ℚ × ℚ
  hitbox : PhysRect
  mass : ℚ
  obstacle_type : ObstacleType
  theta : ℚ
  omega : ℚ
  collided : Bool
  spawned : Bool
  delete_me : Bool
deriving DecidableEq

/-- The `Coin` struct of `physics.rs` (texture omitted). -/
structure Coin where
  pos : Int × Int
  hitbox : PhysRect
  value : Int
  collected : Bool
deriving DecidableEq

/-- The `Power` struct of `physics.rs` (texture omitted). -/
structure Power where
  pos : Int × Int
  hitbox : PhysRect
  power_type : PowerType
  collected : Bool
deriving DecidableEq

namespace Player

/-- Trait method `Entity::x()` for `Player`: `hitbox().x()`. -/
def ex (p : Player) : Int := p.hitbox.x

/-- Trait method `Entity::y()` for `Player`: `hitbox().y()`. -/
def ey (p : Player) : Int := p.hitbox.y

/-- Source `Body::apply_force` for `Player`: `accel += force / mass`. -/
def apply_force (p : Player) (force : ℚ × ℚ) : Player :=
  { p with accel := (p.accel.1 + force.1 / p.mass, p.accel.2 + force.2 / p.mass) }

/-- Source `Body::reset_accel` for `Player`. -/
def reset_accel (p : Player) : Player :=
  { p with accel := (0, 0) }

/-- Source `Body::hard_set_pos` for `Player`. -/
def hard_set_pos (p : Player) (pos : ℚ × ℚ) : Player :=
  { p with pos := pos }

/-- Source `Body::hard_set_vel` for `Player`. -/
def hard_set_vel (p : Player) (vel : ℚ × ℚ) : Player :=
  { p with velocity := vel }

/-- Source `Entity::align_hitbox_to_pos` for `Player`:
`hitbox.set_x(pos.0 as i32); hitbox.set_y(pos.1 as i32)`. -/
def align_hitbox_to_pos (p : Player) : Player :=
  { p with hitbox := (p.hitbox.set_x (i32cast p.pos.1)).set_y (i32cast p.pos.2) }

/-- Source `Player::update_vel(game_over)`: clamp `velocity + accel`; the
horizontal clamp floor is `LOWER_SPEED` after game over and `1.0` while the
run is live; the vertical clamp is `[3 * LOWER_SPEED, 5 * UPPER_SPEED]`.
Rust `f64::clamp(lo, hi)` on non-NaN input is modelled by the two-sided
conditional. -/
def update_vel (p : Player) (game_over : Bool) : Player :=
  let vx := p.velocity.1 + p.accel.1
  let vx := if game_over then
      (if vx < LOWER_SPEED then LOWER_SPEED else if UPPER_SPEED < vx then UPPER_SPEED else vx)
    else
      (if vx < 1 then 1 else if UPPER_SPEED < vx then UPPER_SPEED else vx)
  let vy := p.velocity.2 + p.accel.2
  let vy := if vy < 3 * LOWER_SPEED then 3 * LOWER_SPEED
    else if 5 * UPPER_SPEED < vy then 5 * UPPER_SPEED else vy
  { p with velocity := (vx, vy) }

/-- Source `Player::update_pos(ground, angle, game_over)`.  The hitbox is only
re-aligned at the end, so both `contains_point` tests see the same hitbox. -/
def update_pos (p : Player) (ground : Point) (angleQ : ℚ) (game_over : Bool) : Player :=
  let p := if p.hitbox.contains_point ground.x ground.y then { p with theta := angleQ } else p
  let p := { p with pos := (p.pos.1, p.pos.2 - p.velocity.2) }
  let p :=
    if p.hitbox.contains_point ground.x ground.y && !game_over then
      let p := { p with theta := angleQ }
      if p.jumping then { p with jumping := false, lock_jump_time := false } else p
    else p
  p.align_hitbox_to_pos

/-- Source `Player::set_power_up`. -/
def set_power_up (p : Player) (pu : Option PowerType) : Player :=
  { p with power_up := pu }

end Player

namespace Obstacle

/-- Trait method `Entity::x()` for `Obstacle`. -/
def ex (o : Obstacle) : Int := o.hitbox.x

/-- Source `Body::hard_set_vel` for `Obstacle`. -/
def hard_set_vel (o : Obstacle) (vel : ℚ × ℚ) : Obstacle :=
  { o with velocity := vel }

end Obstacle

namespace Coin

/-- Source `Collectible::collect` for `Coin`. -/
def collect (c : Coin) : Coin :=
  { c with collected := true }

end Coin

namespace Power

/-- Source `Collectible::collect` for `Power`. -/
def collect (pw : Power) : Power :=
  { pw with collected := true }

end Power

namespace Physics

/-- Rust `f64::signum` restricted to the values arising here: `1` for
nonnegative input, `-1` for negative input (`ℚ` has no NaN or negative
zero). -/
def fsignum (q : ℚ) : ℚ := if q < 0 then -1 else 1

/-- Source `Physics::apply_terrain_forces(body, angle, ground, terrain_type, power_up)`
specialised to `Player` (the only `Body` the claims exercise).  `sinA`/`cosA`
stand for `angle.sin()` / `angle.cos()`.  Steps, in source order: pick the
friction coefficient and `g` from the terrain, lower `g` by the factor `2/3`
under `LowerGravity`, apply gravity, and if the hitbox contains the ground
point: land (snap position and vertical velocity) when descending or
penetrating, apply the normal force, and apply kinetic friction only when
`|vel_x| + |vel_y| > 0`. -/
def apply_terrain_forces (body : Player) (sinA cosA : ℚ) (ground : Point)
    (terrain_type : TerrainType) (power_up : Option PowerType) : Player :=
  let fg : ℚ × ℚ :=
    match terrain_type with
    | TerrainType.Asphalt => (0.05, 1.5)
    | TerrainType.Grass => (0.075, 1.5)
    | TerrainType.Sand => (0.06, 2.0)
    | TerrainType.Water => (0.2, 1.5)
  let fric_coeff := fg.1
  let g := if power_up = some PowerType.LowerGravity then fg.2 * 2 / 3 else fg.2
  let body := body.apply_force (0, -body.mass * g)
  if body.hitbox.contains_point ground.x ground.y then
    let body :=
      if body.velocity.2 < 0 ∨ (body.hitbox.x : ℚ) + 0.9 * TILE_SIZE > (ground.y : ℚ) then
        (((body.hard_set_pos ((body.hitbox.x : ℚ), (ground.y : ℚ) - 0.95 * TILE_SIZE)).hard_set_vel
            (body.velocity.1, 0))).align_hitbox_to_pos
      else body
    let body := body.apply_force (body.mass * g * sinA, body.mass * g * cosA)
    if |body.velocity.1| + |body.velocity.2| > 0 then
      let direction_adjust := fsignum body.velocity.1
      body.apply_force
        (-fric_coeff * body.mass * g * cosA * direction_adjust,
          fric_coeff * body.mass * g * sinA * direction_adjust)
    else body
  else body

/-- Source `Physics::apply_bounce(player, body)` with `body` an `Obstacle`
(the only instantiation in the repository): while the hitboxes intersect,
apply the force `(0, k * displacement)` with `k = 0.2` and
`displacement = player.hitbox.bottom().y() - body.hitbox().bottom().y()`. -/
def apply_bounce (player : Player) (body : Obstacle) : Player :=
  let k : ℚ := 0.2
  if player.hitbox.has_intersection body.hitbox then
    player.apply_force (0, k * ((player.hitbox.bottom.y - body.hitbox.bottom.y : Int) : ℚ))
  else player

end Physics

namespace Player

/-- Source `Player::collide_coin(coin)`: collect if not yet collected; the
player is not modified. -/
def collide_coin (_p : Player) (coin : Coin) : Bool × Coin :=
  if !coin.collected then (true, coin.collect) else (false, coin)

/-- Source `Player::collide_power(power)`: if not yet collected, the player's
power-up is set to the power's type, the power is collected, and `true` is
returned. -/
def collide_power (p : Player) (power : Power) : Bool × Player × Power :=
  if !power.collected then (true, p.set_power_up (some power.power_type), power.collect)
  else (false, p, power)

/-- Source `Player::collide_obstacle(obstacle)`, returning the boolean result
together with the updated player and obstacle.  `omegaC` stands for the
irrational source constant `OMEGA = π / 18`, which only occurs in the
top-collision branch for `Chest`.  The source also computes an unused local
`angle` by `atan` of the center differences in the elastic branch (dead code,
not modelled).  In the elastic branch note the factor `2.0` in front of every
final velocity, exactly as written in the source. -/
def collide_obstacle (omegaC : ℚ) (p : Player) (obstacle : Obstacle) :
    Bool × Player × Obstacle :=
  let shielded := p.power_up = some PowerType.Shield
  let collision_side := p.hitbox.nearest_side obstacle.hitbox
  if collision_side = 1 ∨ collision_side = 3 then
    match obstacle.obstacle_type with
    | ObstacleType.Statue | ObstacleType.Chest =>
      if shielded ∨ obstacle.collided then (false, p, obstacle)
      else
        let p_mass := p.mass
        let o_mass := obstacle.mass
        let p_vx := p.velocity.1
        let p_vy := if p.jumping then p.velocity.2 else 0
        let p_vx_f := 2 * (p_mass - o_mass) * p_vx / (p_mass + o_mass)
        let p_vy_f := 2 * (p_mass - o_mass) * p_vy / (p_mass + o_mass)
        let o_vx_f := 2 * (2 * p_mass) * p_vx / (p_mass + o_mass)
        let o_vy_f := 2 * (2 * p_mass) * p_vy / (p_mass + o_mass)
        let obstacle := { obstacle with collided := true }
        let obstacle := obstacle.hard_set_vel (o_vx_f, o_vy_f)
        let p := p.hard_set_vel (p_vx_f, p_vy_f)
        let p := p.hard_set_pos ((obstacle.ex : ℚ) - 1.05 * TILE_SIZE, (p.ey : ℚ))
        let p := p.align_hitbox_to_pos
        (true, p, obstacle)
    | ObstacleType.Balloon => (false, p, obstacle)
  else if p.velocity.2 < 0 then
    match obstacle.obstacle_type with
    | ObstacleType.Chest =>
      let p := { p with pos := (p.pos.1, (obstacle.hitbox.y : ℚ) - 0.95 * TILE_SIZE) }
      let p := p.align_hitbox_to_pos
      let p := { p with velocity := (p.velocity.1, 0), jumping := false, lock_jump_time := false }
      let p := p.apply_force (0, p.mass)
      let p := { p with omega := 0 }
      let obstacle := { obstacle with collided := true }
      if p.theta < omegaC * 6 ∨ p.theta > 360 - omegaC * 6 then
        (false, { p with theta := 0 }, obstacle)
      else
        (true, p, obstacle)
    | ObstacleType.Statue => (true, Physics.apply_bounce p obstacle, obstacle)
    | ObstacleType.Balloon => (false, Physics.apply_bounce p obstacle, obstacle)
  else (false, p, obstacle)

/-- Source `Player::new(hitbox, drawbox, mass, texture)` (state fields only):
note `jumping` starts `true`. -/
def new (hitbox : PhysRect) (mass : ℚ) : Player :=
  { pos := ((hitbox.x : ℚ), (hitbox.y : ℚ)), velocity := (0, 0), accel := (0, 0)
    hitbox := hitbox, theta := 0, omega := 0, mass := mass, power_up := none
    jumping := true, lock_jump_time := false, flipping := false, second_jump := false }

end Player

/-- Source `Obstacle::new(hitbox, mass, texture, obstacle_type)`. -/
def Obstacle.new (hitbox : PhysRect) (mass : ℚ) (obstacle_type : ObstacleType) : Obstacle :=
  { pos := ((hitbox.x : ℚ), (hitbox.y : ℚ)), velocity := (0, 0), accel := (0, 0)
    hitbox := hitbox, mass := mass, obstacle_type := obstacle_type
    theta := 0, omega := 0, collided := false, spawned := false, delete_me := false }

/-- Source `Coin::new(hitbox, texture, value)`. -/
def Coin.new (hitbox : PhysRect) (value : Int) : Coin :=
  { pos := (hitbox.x, hitbox.y), hitbox := hitbox, value := value, collected := false }

/-- Source `Power::new(hitbox, texture, power_type)`. -/
def Power.new (hitbox : PhysRect) (power_type : PowerType) : Power :=
  { pos := (hitbox.x, hitbox.y), hitbox := hitbox, power_type := power_type, collected := false }

/-! Concrete sample entities used as witness and counterexample inputs. -/

/-- Sample player for the elastic-collision claims: mass 2, moving right at
velocity `(4, 7)`, grounded (`jumping = false`), no power-up. -/
def playerA : Player :=
  { Player.new (PhysRect.new 0 0 100 100) 2 with velocity := (4, 7), jumping := false }

/-- Sample statue obstacle of mass 2 positioned up and to the right of
`playerA`, so that the player's corner 1 is nearest to one of its side
midpoints. -/
def obstacleA : Obstacle :=
  Obstacle.new (PhysRect.new 95 (-100) 100 100) 2 ObstacleType.Statue

/-- Sample already-collided chest obstacle in the same geometry. -/
def obstacleB : Obstacle :=
  { Obstacle.new (PhysRect.new 95 (-100) 100 100) 2 ObstacleType.Chest with collided := true }

/-- Sample balloon obstacle in the same geometry. -/
def obstacleC : Obstacle :=
  Obstacle.new (PhysRect.new 95 (-100) 100 100) 2 ObstacleType.Balloon

/-- Sample player for the terrain-forces scenario of the spec: mass 3,
velocity `(0, 0)`, hitbox containing the ground point `(50, 50)`. -/
def playerB : Player :=
  { Player.new (PhysRect.new 0 0 100 100) 3 with jumping := false }

/-- Ground contact point contained in `playerB`'s hitbox. -/
def groundPt : Point := ⟨50, 50⟩

/-- Sample player for the bounce claim: mass 1, axis-aligned 10 by 10 hitbox
at the origin. -/
def playerD : Player := Player.new (PhysRect.new 0 0 10 10) 1

/-- Sample obstacle overlapping `playerD` from below (its top edge at
`y = 5` crosses the player's box). -/
def obstacleD : Obstacle :=
  Obstacle.new (PhysRect.new 2 5 10 10) 1 ObstacleType.Balloon

/-- Sample uncollected coin. -/
def coinA : Coin := Coin.new (PhysRect.new 0 0 10 10) 150

/-- Sample uncollected shield power. -/
def powerA : Power := Power.new (PhysRect.new 0 0 10 10) PowerType.Shield

attribute [ext] Point PhysRect

/-! Helper lemmas. -/

/-- Velocity is untouched by `update_pos` (it only moves position, rotation,
jump flags and re-aligns the hitbox). -/
theorem Player.update_pos_velocity (p : Player) (ground : Point) (angleQ : ℚ)
    (game_over : Bool) : (p.update_pos ground angleQ game_over).velocity = p.velocity := by
  unfold Player.update_pos Player.align_hitbox_to_pos
  dsimp only
  split <;> split <;> try split
  all_goals rfl

/-- Casting an integer into `ℚ` and back through the Rust `as i32` cast is the
identity on the `i32` range. -/
theorem i32cast_intCast (n : Int) (h1 : i32min ≤ n) (h2 : n ≤ i32max) :
    i32cast (n : ℚ) = n := by
  unfold i32cast
  rw [Rat.num_intCast, Rat.den_intCast]
  simp only [Nat.cast_one, Int.tdiv_one]
  rw [if_neg (by unfold i32min at *; omega), if_neg (by unfold i32max at *; omega)]

/-- Bounds for `clamp_position`. -/
theorem clamp_position_mem (v : Int) :
    min_int_value ≤ clamp_position v ∧ clamp_position v ≤ max_int_value := by
  unfold clamp_position min_int_value max_int_value
  split
  · omega
  · split <;> omega

/-- Bounds for `clamp_size`. -/
theorem clamp_size_bounds (v : Nat) : 1 ≤ clamp_size v ∧ clamp_size v ≤ 1073741823 := by
  unfold clamp_size
  split
  · omega
  · split <;> omega

/-- The stored angle of `rotate` is exactly the rotation argument, whatever
the trigonometric parameters are. -/
theorem PhysRect.rotate_theta (r : PhysRect) (theta s c : ℚ) :
    (r.rotate theta s c).theta = theta := rfl

/-! Claim theorems. -/

/-- C3: the corner-consistency invariant fails in the code.  On the
axis-aligned rectangle built by `new(0, 0, 2, 2)`, `set_height(5)` stores
`h = 5` but leaves all four corners describing the old height-2 rectangle
(bottom corners still at `y = 2`, where consistency would need `y = 5`);
likewise `center_on(50, 50)` leaves every corner in place (corner 0 still at
the origin and the corner centroid still at `(1, 1)`), where consistency
would need the corners to move to the new center. -/
theorem set_height_breaks_corner_consistency :
    ((PhysRect.new 0 0 2 2).set_height 5).h = 5 ∧
    ((PhysRect.new 0 0 2 2).set_height 5).p2 = ⟨2, 2⟩ ∧
    ((PhysRect.new 0 0 2 2).set_height 5).p3 = ⟨0, 2⟩ ∧
    ((PhysRect.new 0 0 2 2).center_on 50 50).p0 = ⟨0, 0⟩ ∧
    ((PhysRect.new 0 0 2 2).center_on 50 50).p2 = ⟨2, 2⟩ ∧
    ((PhysRect.new 0 0 2 2).center_on 50 50).center = ⟨1, 1⟩ := by
  refine ⟨rfl, rfl, rfl, rfl, rfl, ?_⟩
  decide

/-- C8: the claim's "no position update overflows" part fails in the code.
`offset` with a large negative delta takes the `checked_add` overflow branch
and stores `i32::min_value()` = -2147483648 into `x`, BELOW the documented
clamp range `[min_int_value(), max_int_value()]`; and `set_x` computes its
corner delta `x - self.x()` by raw `i32` subtraction, which overflows: for
the rectangle at `x = min_int_value()` and the request `x = i32::max_value()`
the true delta 3221225471 wraps to -1073741825, so the stored `x` becomes
1073741823 while corner 0 is pushed left (and clamped in place) instead of
moving right with it. -/
theorem position_update_overflow_unsafe :
    ((PhysRect.new (-1073741824) 0 2 2).offset (-2000000000) 0).x = -2147483648 ∧
    ((PhysRect.new (-1073741824) 0 2 2).offset (-2000000000) 0).x < min_int_value ∧
    ((PhysRect.new (-1073741824) 0 2 2).set_x 2147483647).x = 1073741823 ∧
    ((PhysRect.new (-1073741824) 0 2 2).set_x 2147483647).p0.x = -1073741824 ∧
    wrap32 (2147483647 - (-1073741824)) = -1073741825 ∧
    (0 : Int) < 2147483647 - (-1073741824) := by
  decide

/-- C8 amended: construction clamps instead of failing — width 0 becomes
width 1 (likewise height), sizes above `i32::max_value()/2` clamp to it,
positions clamp into `[min_int_value(), max_int_value()]`, the constructor's
raw corner sums stay within `i32` (construction never overflows) and every
stored corner lies within the clamp range; position updates always clamp the
stored reference coordinate (`set_x`/`set_y`), and `offset` clamps the
updated position whenever the checked addition does not overflow — but
position updates are NOT overflow-safe for extreme arguments (see
`position_update_overflow_unsafe`). -/
theorem physrect_construction_clamps :
    (∀ x y h, (PhysRect.new x y 0 h).width = 1) ∧
    (∀ x y w, (PhysRect.new x y w 0).height = 1) ∧
    (∀ v : Nat, 1073741823 < v → clamp_size v = 1073741823) ∧
    (∀ v : Int, min_int_value ≤ clamp_position v ∧ clamp_position v ≤ max_int_value ∧
      (max_int_value < v → clamp_position v = max_int_value) ∧
      (v < min_int_value → clamp_position v = min_int_value)) ∧
    (∀ x y w h, i32min ≤ clamp_position x + (clamp_size w : Int) ∧
      clamp_position x + (clamp_size w : Int) ≤ i32max ∧
      min_int_value ≤ (PhysRect.new x y w h).p2.x ∧
      (PhysRect.new x y w h).p2.x ≤ max_int_value ∧
      min_int_value ≤ (PhysRect.new x y w h).p2.y ∧
      (PhysRect.new x y w h).p2.y ≤ max_int_value) ∧
    (∀ (r : PhysRect) (x : Int), (r.set_x x).x = clamp_position x) ∧
    (∀ (r : PhysRect) (y : Int), (r.set_y y).y = clamp_position y) ∧
    (∀ (r : PhysRect) (dx dy : Int), i32min ≤ r.x + dx → r.x + dx ≤ i32max →
      (r.offset dx dy).x = clamp_position (r.x + dx)) := by
  refine ⟨?_, ?_, ?_, ?_, ?_, ?_, ?_, ?_⟩
  · intro x y h
    simp [PhysRect.new, PhysRect.width, clamp_size]
  · intro x y w
    simp [PhysRect.new, PhysRect.height, clamp_size]
  · intro v hv
    unfold clamp_size
    rw [if_neg (by omega), if_pos hv]
  · intro v
    refine ⟨(clamp_position_mem v).1, (clamp_position_mem v).2, ?_, ?_⟩
    · intro h
      unfold clamp_position
      rw [if_pos h]
    · intro h
      unfold clamp_position max_int_value min_int_value at *
      rw [if_neg (by omega), if_pos (by omega)]
  · intro x y w h
    have hx := clamp_position_mem x
    have hy := clamp_position_mem y
    have hw := clamp_size_bounds w
    have hh := clamp_size_bounds h
    have hsum1 := clamp_position_mem (clamp_position x + (clamp_size w : Int))
    have hsum2 := clamp_position_mem (clamp_position y + (clamp_size h : Int))
    simp only [PhysRect.new, Point.new]
    unfold min_int_value max_int_value at hx hy hsum1 hsum2
    unfold i32min i32max min_int_value max_int_value
    refine ⟨?_, ?_, ?_, ?_, ?_, ?_⟩ <;> omega
  · intro r x
    rfl
  · intro r y
    rfl
  · intro r dx dy h1 h2
    unfold PhysRect.offset
    dsimp only
    rw [if_pos ⟨h1, h2⟩]

/-- C8 witness for the amended claim: the clamping facts at concrete inputs,
including an in-range `offset`. -/
theorem physrect_construction_clamps_inst :
    clamp_size 2000000000 = 1073741823 ∧
    clamp_position 2000000000 = max_int_value ∧
    clamp_position (-2000000000) = min_int_value ∧
    ((PhysRect.new 5 6 7 8).offset 100 200).x = 105 := by
  refine ⟨physrect_construction_clamps.2.2.1 2000000000 (by norm_num), ?_, ?_, ?_⟩
  · exact (physrect_construction_clamps.2.2.2.1 2000000000).2.2.1 (by norm_num [max_int_value])
  · exact (physrect_construction_clamps.2.2.2.1 (-2000000000)).2.2.2
      (by norm_num [min_int_value])
  · have h := physrect_construction_clamps.2.2.2.2.2.2.2 (PhysRect.new 5 6 7 8) 100 200
      (by decide) (by decide)
    rw [h]
    decide

/-- C9: after `update_vel` with `game_over = false` the horizontal velocity is
clamped into `[1, 8]` (in particular strictly positive); with
`game_over = true` it is clamped into `[-5, 8]`; the vertical velocity is
always clamped into `[-15, 40]`. -/
theorem update_vel_speed_bounds (p : Player) :
    (1 ≤ (p.update_vel false).velocity.1 ∧ (p.update_vel false).velocity.1 ≤ 8) ∧
    (0 < (p.update_vel false).velocity.1) ∧
    (-5 ≤ (p.update_vel true).velocity.1 ∧ (p.update_vel true).velocity.1 ≤ 8) ∧
    (∀ go, -15 ≤ (p.update_vel go).velocity.2 ∧ (p.update_vel go).velocity.2 ≤ 40) := by
  have e1 : (p.update_vel false).velocity.1 =
      (if p.velocity.1 + p.accel.1 < 1 then (1 : ℚ)
        else if UPPER_SPEED < p.velocity.1 + p.accel.1 then UPPER_SPEED
        else p.velocity.1 + p.accel.1) := rfl
  have e2 : (p.update_vel true).velocity.1 =
      (if p.velocity.1 + p.accel.1 < LOWER_SPEED then LOWER_SPEED
        else if UPPER_SPEED < p.velocity.1 + p.accel.1 then UPPER_SPEED
        else p.velocity.1 + p.accel.1) := rfl
  have e3 : ∀ go, (p.update_vel go).velocity.2 =
      (if p.velocity.2 + p.accel.2 < 3 * LOWER_SPEED then 3 * LOWER_SPEED
        else if 5 * UPPER_SPEED < p.velocity.2 + p.accel.2 then 5 * UPPER_SPEED
        else p.velocity.2 + p.accel.2) := fun _ => rfl
  simp only [LOWER_SPEED, UPPER_SPEED] at e1 e2 e3
  refine ⟨⟨?_, ?_⟩, ?_, ⟨?_, ?_⟩, fun go => ⟨?_, ?_⟩⟩ <;>
    first
      | (rw [e1]; split_ifs <;> linarith)
      | (rw [e2]; split_ifs <;> linarith)
      | (rw [e3]; split_ifs <;> linarith)

/-- One even-odd edge step never divides by zero: the checked step always
returns `some` of the unchecked step. -/
theorem cpStepChecked_eq (px py : Int) (a b : Point) (c : Bool) :
    PhysRect.cpStepChecked px py a b c = some (PhysRect.cpStep px py a b c) := by
  unfold PhysRect.cpStepChecked PhysRect.cpStep
  by_cases hg : (decide (a.y > py) != decide (b.y > py)) = true
  · have hne : a.y ≠ b.y := by
      intro h
      rw [h] at hg
      simp at hg
    rw [if_pos hg, if_neg (by omega)]
    simp only [hg, Bool.true_and, decide_eq_true_eq]
  · rw [if_neg hg]
    simp only [hg, Bool.false_and, if_neg Bool.false_ne_true]

/-- C10: `contains_point` is total; the guarded integer division can never see
a zero divisor, so the checked version always agrees with the direct one. -/
theorem contains_point_checked_total (r : PhysRect) (px py : Int) :
    r.contains_point_checked px py = some (r.contains_point px py) := by
  unfold PhysRect.contains_point_checked PhysRect.contains_point
  simp only [cpStepChecked_eq, Option.some_bind]

/-- C4: `collide_coin` and `collide_power` are at-most-once consumers: on an
uncollected collectible the first call returns `true`, marks it collected
(and for a power sets the player's power-up to the power's type); any call on
a collected collectible returns `false` and changes nothing, so `collected`
is monotone. -/
theorem collide_coin_power_at_most_once (p q : Player) (c : Coin) (pw : Power) :
    (c.collected = false →
      (p.collide_coin c).1 = true ∧
      (p.collide_coin c).2.collected = true ∧
      (q.collide_coin (p.collide_coin c).2).1 = false ∧
      (q.collide_coin (p.collide_coin c).2).2 = (p.collide_coin c).2) ∧
    (c.collected = true → p.collide_coin c = (false, c)) ∧
    (pw.collected = false →
      (p.collide_power pw).1 = true ∧
      (p.collide_power pw).2.1.power_up = some pw.power_type ∧
      (p.collide_power pw).2.2.collected = true ∧
      (q.collide_power (p.collide_power pw).2.2).1 = false ∧
      (q.collide_power (p.collide_power pw).2.2).2.1 = q ∧
      (q.collide_power (p.collide_power pw).2.2).2.2 = (p.collide_power pw).2.2) ∧
    (pw.collected = true → p.collide_power pw = (false, p, pw)) := by
  refine ⟨fun h => ?_, fun h => ?_, fun h => ?_, fun h => ?_⟩ <;>
    simp [Player.collide_coin, Player.collide_power, Coin.collect, Power.collect,
      Player.set_power_up, h]

/-- C4 witness: collecting the sample coin and the sample power twice. -/
theorem collide_coin_power_at_most_once_inst :
    (playerA.collide_coin coinA).1 = true ∧
    (playerA.collide_coin (playerA.collide_coin coinA).2).1 = false ∧
    (playerA.collide_power powerA).2.1.power_up = some PowerType.Shield ∧
    (playerA.collide_power (playerA.collide_power powerA).2.2).1 = false := by
  have h := collide_coin_power_at_most_once playerA playerA coinA powerA
  have h1 := h.1 rfl
  have h3 := h.2.2.1 rfl
  exact ⟨h1.1, h1.2.2.1, h3.2.1, h3.2.2.2.1⟩

/-- C5: a side contact (`nearest_side` 1 or 3) with a Statue or Chest while
the player is shielded or the obstacle has already collided returns `false`
and leaves both the player and the obstacle completely unchanged; a side
contact with a Balloon does the same unconditionally. -/
theorem collide_obstacle_side_contact_noop (omegaC : ℚ) (p : Player) (o : Obstacle)
    (hside : p.hitbox.nearest_side o.hitbox = 1 ∨ p.hitbox.nearest_side o.hitbox = 3)
    (hcase : ((o.obstacle_type = ObstacleType.Statue ∨ o.obstacle_type = ObstacleType.Chest) ∧
        (p.power_up = some PowerType.Shield ∨ o.collided = true)) ∨
      o.obstacle_type = ObstacleType.Balloon) :
    Player.collide_obstacle omegaC p o = (false, p, o) := by
  simp only [Player.collide_obstacle]
  rw [if_pos hside]
  rcases hcase with ⟨htype, hdup⟩ | hb
  · rcases htype with h | h <;> simp only [h] <;> rw [if_pos hdup]
  · simp only [hb]

/-- C5 witness: side contact with an already-collided chest and with a
balloon, in a concrete geometry where the player's corner 1 is nearest. -/
theorem collide_obstacle_side_contact_noop_inst :
    Player.collide_obstacle 0 playerA obstacleB = (false, playerA, obstacleB) ∧
    Player.collide_obstacle 0 playerA obstacleC = (false, playerA, obstacleC) :=
  ⟨collide_obstacle_side_contact_noop 0 playerA obstacleB (Or.inl (by decide))
      (Or.inl ⟨Or.inr rfl, Or.inr rfl⟩),
    collide_obstacle_side_contact_noop 0 playerA obstacleC (Or.inl (by decide))
      (Or.inr rfl)⟩

/-- C1: evaluating the elastic-collision branch at equal masses.  With player
and obstacle mass both 2 and incoming player velocity `(4, 0)` (grounded, so
the vertical part is taken as 0), the code returns `true` and sets the
player's velocity to `(0, 0)` — but the obstacle's velocity to `(8, 0)`,
twice the incoming speed, because every final velocity in the source carries
an extra factor `2.0` relative to the standard one-dimensional
elastic-collision formula, whose equal-mass full-exchange value
`2 m v / (m + m) = v` is `4`. -/
theorem collide_obstacle_equal_mass_double_exchange :
    (Player.collide_obstacle 0 playerA obstacleA).1 = true ∧
    (Player.collide_obstacle 0 playerA obstacleA).2.1.velocity = (0, 0) ∧
    (Player.collide_obstacle 0 playerA obstacleA).2.2.velocity = (8, 0) ∧
    playerA.mass = obstacleA.mass ∧ playerA.velocity.1 = 4 ∧
    2 * playerA.mass * playerA.velocity.1 / (playerA.mass + obstacleA.mass) = 4 ∧
    (8 : ℚ) ≠ 4 := by
  have hside : (PhysRect.new 0 0 100 100).nearest_side (PhysRect.new 95 (-100) 100 100) = 1 := by
    decide
  refine ⟨?_, ?_, ?_, rfl, rfl,
      by norm_num [playerA, obstacleA, Player.new, Obstacle.new], by norm_num⟩ <;>
    simp [Player.collide_obstacle, hside, playerA, obstacleA, Player.new, Obstacle.new,
      Player.hard_set_vel, Player.hard_set_pos, Player.align_hitbox_to_pos,
      Obstacle.hard_set_vel]
  norm_num

/-- C7: evaluating `apply_bounce` at intersecting hitboxes with the player
above the obstacle: the force applied is `(0, -1)` — vertically DOWNWARD —
because `bottom()` (by its `<=` comparisons) returns a corner of minimal `y`,
i.e. a topmost corner: the player rectangle `(0,0,10,10)` has its bottom-most
corner at `y = 10`, yet `bottom()` yields `y = 0`, and the displacement
`0 - 5 = -5` is not the vertical overlap depth (which is 5). -/
theorem apply_bounce_downward_force :
    playerD.hitbox.has_intersection obstacleD.hitbox = true ∧
    (Physics.apply_bounce playerD obstacleD).accel = (0, -1) ∧
    playerD.hitbox.bottom.y = 0 ∧
    obstacleD.hitbox.bottom.y = 5 ∧
    playerD.hitbox.p2.y = 10 := by
  refine ⟨by decide, ?_, by decide, by decide, by decide⟩
  have hint : (PhysRect.new 0 0 10 10).has_intersection (PhysRect.new 2 5 10 10) = true := by
    decide
  have hby : (PhysRect.new 0 0 10 10).bottom.y = 0 := by decide
  have hoy : (PhysRect.new 2 5 10 10).bottom.y = 5 := by decide
  simp [Physics.apply_bounce, hint, hby, hoy, Player.apply_force, playerD, obstacleD,
    Player.new, Obstacle.new]
  norm_num

/-- C2: evaluating the spec's end-to-end scenario: mass 3, velocity `(0, 0)`,
hitbox containing the ground point, angle 0 (`sin = 0`, `cos = 1`), asphalt,
no power-up.  After `apply_terrain_forces`, `update_vel false`, `update_pos`,
the vertical velocity is 0 as claimed, but the horizontal velocity is `1`,
not `0`: `update_vel` clamps a live player's horizontal speed into `[1, 8]`,
so the value 0 is raised to the clamp floor. -/
theorem terrain_tick_horizontal_not_zero :
    ((((Physics.apply_terrain_forces playerB 0 1 groundPt TerrainType.Asphalt none)).update_vel
        false).update_pos groundPt 0 false).velocity = (1, 0) ∧ (1 : ℚ) ≠ 0 := by
  refine ⟨?_, by norm_num⟩
  rw [Player.update_pos_velocity]
  have hg : (PhysRect.new 0 0 100 100).contains_point 50 50 = true := by decide
  have hx : (PhysRect.new 0 0 100 100).x = 0 := by decide
  simp [Physics.apply_terrain_forces, playerB, Player.new, groundPt, Player.apply_force,
    Player.hard_set_pos, Player.hard_set_vel, Player.align_hitbox_to_pos, Physics.fsignum,
    hg, hx, TILE_SIZE, Player.update_vel, LOWER_SPEED, UPPER_SPEED]
  norm_num

/-- C2 amended: in the same scenario, one tick leaves the velocity at exactly
`(1, 0)`: the vertical velocity is 0 and the friction branch is skipped as
the claim says, but the horizontal velocity is raised to the live lower
clamp bound `1.0` by `update_vel`, not left unchanged at `0`. -/
theorem terrain_tick_flat_asphalt_rest (p : Player) (ground : Point)
    (hm : p.mass = 3) (hv : p.velocity = (0, 0)) (ha : p.accel = (0, 0))
    (hg : p.hitbox.contains_point ground.x ground.y = true) :
    ((((Physics.apply_terrain_forces p 0 1 ground TerrainType.Asphalt none)).update_vel
        false).update_pos ground 0 false).velocity = (1, 0) := by
  rw [Player.update_pos_velocity]
  by_cases hc : ((p.hitbox.x : ℚ) + 0.9 * TILE_SIZE > ((ground.y : Int) : ℚ)) <;>
    simp [Physics.apply_terrain_forces, Player.apply_force, Player.hard_set_pos,
      Player.hard_set_vel, Player.align_hitbox_to_pos, Physics.fsignum, hm, hv, ha, hg, hc,
      Player.update_vel, LOWER_SPEED, UPPER_SPEED] <;>
    norm_num

/-- C2 witness for the amended claim: the concrete sample scenario. -/
theorem terrain_tick_flat_asphalt_rest_inst :
    ((((Physics.apply_terrain_forces playerB 0 1 groundPt TerrainType.Asphalt none)).update_vel
        false).update_pos groundPt 0 false).velocity = (1, 0) :=
  terrain_tick_flat_asphalt_rest playerB groundPt rfl rfl rfl (by decide)

/-- C6: the stored angle is not updated modulo 2π.  `rotate(7)` stores exactly
`7`, which is at least `2π` and hence not an angle normalized into `[0, 2π)`;
and rotating twice by `1` stores `1`, not `2`: the argument overwrites the
stored angle instead of being added and reduced.  (The trigonometric
parameters below are decimal approximations of the sine and cosine of the
rotation arguments; the stored angle does not depend on them, see
`PhysRect.rotate_theta`.) -/
theorem rotate_angle_not_reduced_mod_two_pi :
    ((PhysRect.new 0 0 2 2).rotate 7 (657/1000) (754/1000)).theta = 7 ∧
    2 * Real.pi < 7 ∧
    (((PhysRect.new 0 0 2 2).rotate 1 (1683/2000) (2701/5000)).rotate 1
        (1683/2000) (2701/5000)).theta = 1 ∧ (1 : ℚ) ≠ 1 + 1 := by
  refine ⟨rfl, ?_, rfl, by norm_num⟩
  have h := Real.pi_lt_d2
  linarith

/-- Truncating remainder magnitude: `|a.tmod b| < b` for positive `b`. -/
theorem tmod_abs_lt (a b : Int) (hb : 0 < b) : |a.tmod b| < b := by
  rcases le_or_lt 0 a with ha | ha
  · rw [abs_of_nonneg (Int.tmod_nonneg b ha)]
    exact Int.tmod_lt_of_pos a hb
  · have h1 : a.tmod b = -((-a).tmod b) := by
      rw [Int.tmod_def, Int.tmod_def, Int.neg_tdiv]
      ring
    rw [h1, abs_neg, abs_of_nonneg (Int.tmod_nonneg b (by omega))]
    exact Int.tmod_lt_of_pos (-a) hb

/-- The `as i32` cast of an in-range rational truncates with error below one
and stays in range (so neither saturation branch fires). -/
theorem i32cast_approx (q : ℚ) (h : |q| ≤ 1073741823) :
    |((i32cast q : Int) : ℚ) - q| < 1 ∧ |(i32cast q : Int)| ≤ 1073741823 := by
  have hd : (0 : Int) < (q.den : Int) := by exact_mod_cast q.den_pos
  have hmod := Int.tdiv_add_tmod q.num (q.den : Int)
  have hm := tmod_abs_lt q.num (q.den : Int) hd
  have hq : ((q.num : Int) : ℚ) / ((q.den : Int) : ℚ) = q := by
    push_cast
    exact Rat.num_div_den q
  have hden0 : (((q.den : Int) : ℚ)) ≠ 0 := by
    have : (0 : ℚ) < ((q.den : Int) : ℚ) := by exact_mod_cast hd
    linarith
  have hcast : (((q.den : Int)) : ℚ) * ((q.num.tdiv (q.den : Int) : Int) : ℚ)
      + ((q.num.tmod (q.den : Int) : Int) : ℚ) = ((q.num : Int) : ℚ) := by
    exact_mod_cast hmod
  rw [div_eq_iff hden0] at hq
  have herr : |((q.num.tdiv (q.den : Int) : Int) : ℚ) - q| < 1 := by
    have he : ((q.num.tdiv (q.den : Int) : Int) : ℚ) - q
        = -(((q.num.tmod (q.den : Int) : Int) : ℚ)) / (((q.den : Int)) : ℚ) := by
      rw [eq_div_iff hden0]
      linear_combination hcast + hq
    rw [he, abs_div, abs_neg]
    rw [div_lt_one (by positivity)]
    have h1 : |((q.num.tmod (q.den : Int) : Int) : ℚ)| < (((q.den : Int)) : ℚ) := by
      exact_mod_cast hm
    have h2 : |(((q.den : Int)) : ℚ)| = (((q.den : Int)) : ℚ) :=
      abs_of_pos (by exact_mod_cast hd)
    rw [h2] at *
    exact h1
  have htb : |(q.num.tdiv (q.den : Int) : Int)| ≤ 1073741823 := by
    have hlt : |((q.num.tdiv (q.den : Int) : Int) : ℚ)| < 1073741824 := by
      have h3 : |((q.num.tdiv (q.den : Int) : Int) : ℚ)|
          ≤ |((q.num.tdiv (q.den : Int) : Int) : ℚ) - q| + |q| := by
        calc |((q.num.tdiv (q.den : Int) : Int) : ℚ)|
            = |(((q.num.tdiv (q.den : Int) : Int) : ℚ) - q) + q| := by ring_nf
          _ ≤ |((q.num.tdiv (q.den : Int) : Int) : ℚ) - q| + |q| := abs_add _ _
      linarith
    have h4 : |(q.num.tdiv (q.den : Int) : Int)| < (1073741824 : Int) := by
      have h5 := hlt
      rw [← Int.cast_abs] at h5
      exact_mod_cast h5
    omega
  have hcast_eq : i32cast q = q.num.tdiv (q.den : Int) := by
    obtain ⟨hl, hu⟩ := abs_le.mp htb
    unfold i32cast i32min i32max
    rw [if_neg (by omega), if_neg (by omega)]
  rw [hcast_eq]
  exact ⟨herr, htb⟩

/-- In the clamp range, `clamp_position` is the identity. -/
theorem clamp_position_eq_self (n : Int) (h : |n| ≤ 1073741823) : clamp_position n = n := by
  obtain ⟨h1, h2⟩ := abs_le.mp h
  unfold clamp_position max_int_value min_int_value
  rw [if_neg (by omega), if_neg (by omega)]

/-- The full corner store of `rotate` — cast then `Point::new` clamp — also
truncates with error below one on in-range values. -/
theorem clampCast_close (q : ℚ) (h : |q| ≤ 1073741823) :
    |((clamp_position (i32cast q) : Int) : ℚ) - q| < 1 ∧
    |(clamp_position (i32cast q) : Int)| ≤ 1073741823 := by
  obtain ⟨h1, h2⟩ := i32cast_approx q h
  rw [clamp_position_eq_self _ h2]
  exact ⟨h1, h2⟩

/-- Halving with truncating division loses at most one unit. -/
theorem tdiv_two_err (a : Int) : |2 * a.tdiv 2 - a| ≤ 1 := by
  have h := Int.tdiv_add_tmod a 2
  have hm := tmod_abs_lt a 2 (by norm_num)
  obtain ⟨hm1, hm2⟩ := abs_lt.mp hm
  rw [abs_le]
  omega

/-- Multiplying by a factor of magnitude at most one does not increase
magnitude. -/
theorem abs_le_one_mul (c z : ℚ) (hc : |c| ≤ 1) : |c * z| ≤ |z| := by
  rw [abs_mul]
  exact mul_le_of_le_one_left (abs_nonneg _) hc

/-- Bound for the rotated `x`-form `c * dx - s * dy + m`. -/
theorem rot_sub_bound (s c dx dy m A M : ℚ) (hs : |s| ≤ 1) (hc : |c| ≤ 1)
    (hdx : |dx| ≤ A) (hdy : |dy| ≤ A) (hm : |m| ≤ M) :
    |c * dx - s * dy + m| ≤ 2 * A + M := by
  have h1 : |c * dx| ≤ A := le_trans (abs_le_one_mul c dx hc) hdx
  have h2 : |s * dy| ≤ A := le_trans (abs_le_one_mul s dy hs) hdy
  have h3 : |c * dx - s * dy| ≤ |c * dx| + |s * dy| := abs_sub _ _
  have h4 : |c * dx - s * dy + m| ≤ |c * dx - s * dy| + |m| := abs_add _ _
  linarith

/-- Bound for the rotated `y`-form `s * dx + c * dy + m`. -/
theorem rot_add_bound (s c dx dy m A M : ℚ) (hs : |s| ≤ 1) (hc : |c| ≤ 1)
    (hdx : |dx| ≤ A) (hdy : |dy| ≤ A) (hm : |m| ≤ M) :
    |s * dx + c * dy + m| ≤ 2 * A + M := by
  have h1 : |s * dx| ≤ A := le_trans (abs_le_one_mul s dx hs) hdx
  have h2 : |c * dy| ≤ A := le_trans (abs_le_one_mul c dy hc) hdy
  have h3 : |s * dx + c * dy| ≤ |s * dx| + |c * dy| := abs_add _ _
  have h4 : |s * dx + c * dy + m| ≤ |s * dx + c * dy| + |m| := abs_add _ _
  linarith

/-- Corner 0 of `rotate`, unfolded. -/
theorem PhysRect.rotate_p0 (r : PhysRect) (theta s c : ℚ) :
    (r.rotate theta s c).p0 = Point.new
      (i32cast (c * ((r.p0.x : ℚ) - (r.center.x : ℚ))
        - s * ((r.p0.y : ℚ) - (r.center.y : ℚ)) + (r.center.x : ℚ)))
      (i32cast (s * ((r.p0.x : ℚ) - (r.center.x : ℚ))
        + c * ((r.p0.y : ℚ) - (r.center.y : ℚ)) + (r.center.y : ℚ))) := rfl

/-- Corner 1 of `rotate`, unfolded. -/
theorem PhysRect.rotate_p1 (r : PhysRect) (theta s c : ℚ) :
    (r.rotate theta s c).p1 = Point.new
      (i32cast (c * ((r.p1.x : ℚ) - (r.center.x : ℚ))
        - s * ((r.p1.y : ℚ) - (r.center.y : ℚ)) + (r.center.x : ℚ)))
      (i32cast (s * ((r.p1.x : ℚ) - (r.center.x : ℚ))
        + c * ((r.p1.y : ℚ) - (r.center.y : ℚ)) + (r.center.y : ℚ))) := rfl

/-- Corner 2 of `rotate`, unfolded. -/
theorem PhysRect.rotate_p2 (r : PhysRect) (theta s c : ℚ) :
    (r.rotate theta s c).p2 = Point.new
      (i32cast (c * ((r.p2.x : ℚ) - (r.center.x : ℚ))
        - s * ((r.p2.y : ℚ) - (r.center.y : ℚ)) + (r.center.x : ℚ)))
      (i32cast (s * ((r.p2.x : ℚ) - (r.center.x : ℚ))
        + c * ((r.p2.y : ℚ) - (r.center.y : ℚ)) + (r.center.y : ℚ))) := rfl

/-- Corner 3 of `rotate`, unfolded. -/
theorem PhysRect.rotate_p3 (r : PhysRect) (theta s c : ℚ) :
    (r.rotate theta s c).p3 = Point.new
      (i32cast (c * ((r.p3.x : ℚ) - (r.center.x : ℚ))
        - s * ((r.p3.y : ℚ) - (r.center.y : ℚ)) + (r.center.x : ℚ)))
      (i32cast (s * ((r.p3.x : ℚ) - (r.center.x : ℚ))
        + c * ((r.p3.y : ℚ) - (r.center.y : ℚ)) + (r.center.y : ℚ))) := rfl

/-- Coordinates of `Point.new`. -/
theorem Point.new_x (x y : Int) : (Point.new x y).x = clamp_position x := rfl

/-- Coordinates of `Point.new`. -/
theorem Point.new_y (x y : Int) : (Point.new x y).y = clamp_position y := rfl

/-- One corner of the rotate/rotate-back round trip: if the first rotation
produced `(qx, qy)` from `(px, py)` about the first center with truncation
error below one, and the second center drifted by at most two units, then
undoing the rotation (parameters `(-s, c)`) returns each coordinate to
within 10 units of the original.  The hypothesis on `s * s + c * c` holds
for every `f64` sine/cosine pair (their squares sum to 1 within a few ulp,
far below `2 ^ (-40)`). -/
theorem round_trip_corner (s c : ℚ) (hs : |s| ≤ 1) (hc : |c| ≤ 1)
    (hsq : |s * s + c * c - 1| ≤ 1 / 1099511627776)
    (px py c1x c1y c2x c2y qx qy : Int)
    (hpx : |(px : ℚ)| ≤ 67108864) (hpy : |(py : ℚ)| ≤ 67108864)
    (hc1x : |(c1x : ℚ)| ≤ 67108864) (hc1y : |(c1y : ℚ)| ≤ 67108864)
    (hqx : |(qx : ℚ) - (c * ((px : ℚ) - (c1x : ℚ))
      - s * ((py : ℚ) - (c1y : ℚ)) + (c1x : ℚ))| < 1)
    (hqy : |(qy : ℚ) - (s * ((px : ℚ) - (c1x : ℚ))
      + c * ((py : ℚ) - (c1y : ℚ)) + (c1y : ℚ))| < 1)
    (hgx : |(c1x : ℚ) - (c2x : ℚ)| ≤ 2) (hgy : |(c1y : ℚ) - (c2y : ℚ)| ≤ 2) :
    |((clamp_position (i32cast (c * ((qx : ℚ) - (c2x : ℚ))
        - -s * ((qy : ℚ) - (c2y : ℚ)) + (c2x : ℚ))) : Int) : ℚ) - (px : ℚ)| ≤ 10 ∧
    |((clamp_position (i32cast (-s * ((qx : ℚ) - (c2x : ℚ))
        + c * ((qy : ℚ) - (c2y : ℚ)) + (c2y : ℚ))) : Int) : ℚ) - (py : ℚ)| ≤ 10 := by
  set dx : ℚ := (px : ℚ) - (c1x : ℚ) with hdx_def
  set dy : ℚ := (py : ℚ) - (c1y : ℚ) with hdy_def
  set ex : ℚ := (qx : ℚ) - (c * dx - s * dy + (c1x : ℚ)) with hex_def
  set ey : ℚ := (qy : ℚ) - (s * dx + c * dy + (c1y : ℚ)) with hey_def
  set gx : ℚ := (c1x : ℚ) - (c2x : ℚ) with hgx_def
  set gy : ℚ := (c1y : ℚ) - (c2y : ℚ) with hgy_def
  have hdxb : |dx| ≤ 134217728 := by
    have h1 : |dx| ≤ |(px : ℚ)| + |(c1x : ℚ)| := abs_sub _ _
    linarith
  have hdyb : |dy| ≤ 134217728 := by
    have h1 : |dy| ≤ |(py : ℚ)| + |(c1y : ℚ)| := abs_sub _ _
    linarith
  have hqx_eq : (qx : ℚ) = c * dx - s * dy + (c1x : ℚ) + ex := by
    rw [hex_def]
    ring
  have hqy_eq : (qy : ℚ) = s * dx + c * dy + (c1y : ℚ) + ey := by
    rw [hey_def]
    ring
  have hc2x_eq : (c2x : ℚ) = (c1x : ℚ) - gx := by
    rw [hgx_def]
    ring
  have hc2y_eq : (c2y : ℚ) = (c1y : ℚ) - gy := by
    rw [hgy_def]
    ring
  have hterm2 : |c * (ex + gx)| ≤ 3 := by
    have h1 : |ex + gx| ≤ |ex| + |gx| := abs_add _ _
    have h2 := abs_le_one_mul c (ex + gx) hc
    linarith
  have hterm3 : |s * (ey + gy)| ≤ 3 := by
    have h1 : |ey + gy| ≤ |ey| + |gy| := abs_add _ _
    have h2 := abs_le_one_mul s (ey + gy) hs
    linarith
  have habs4 : ∀ a b c3 d : ℚ, |a + b + c3 - d| ≤ |a| + |b| + |c3| + |d| := by
    intro a b c3 d
    have h1 : |a + b + c3 - d| ≤ |a + b + c3| + |d| := abs_sub _ _
    have h2 : |a + b + c3| ≤ |a + b| + |c3| := abs_add _ _
    have h3 : |a + b| ≤ |a| + |b| := abs_add _ _
    linarith
  constructor
  · have hterm1 : |(s * s + c * c - 1) * dx| ≤ 1 / 8192 := by
      rw [abs_mul]
      calc |s * s + c * c - 1| * |dx| ≤ (1 / 1099511627776) * 134217728 :=
          mul_le_mul hsq hdxb (abs_nonneg _) (by norm_num)
        _ ≤ 1 / 8192 := by norm_num
    have hWident : c * ((qx : ℚ) - (c2x : ℚ)) - -s * ((qy : ℚ) - (c2y : ℚ)) + (c2x : ℚ)
        - (px : ℚ)
        = (s * s + c * c - 1) * dx + c * (ex + gx) + s * (ey + gy) - gx := by
      rw [hqx_eq, hqy_eq, hc2x_eq, hc2y_eq, hdx_def]
      ring
    have hWdiff : |c * ((qx : ℚ) - (c2x : ℚ)) - -s * ((qy : ℚ) - (c2y : ℚ)) + (c2x : ℚ)
        - (px : ℚ)| ≤ 17 / 2 := by
      rw [hWident]
      have h4 := habs4 ((s * s + c * c - 1) * dx) (c * (ex + gx)) (s * (ey + gy)) gx
      linarith
    have hWrange : |c * ((qx : ℚ) - (c2x : ℚ)) - -s * ((qy : ℚ) - (c2y : ℚ)) + (c2x : ℚ)|
        ≤ 1073741823 := by
      have h1 : |c * ((qx : ℚ) - (c2x : ℚ)) - -s * ((qy : ℚ) - (c2y : ℚ)) + (c2x : ℚ)|
          ≤ |c * ((qx : ℚ) - (c2x : ℚ)) - -s * ((qy : ℚ) - (c2y : ℚ)) + (c2x : ℚ)
            - (px : ℚ)| + |(px : ℚ)| := by
        calc |c * ((qx : ℚ) - (c2x : ℚ)) - -s * ((qy : ℚ) - (c2y : ℚ)) + (c2x : ℚ)|
            = |(c * ((qx : ℚ) - (c2x : ℚ)) - -s * ((qy : ℚ) - (c2y : ℚ)) + (c2x : ℚ)
              - (px : ℚ)) + (px : ℚ)| := by ring_nf
          _ ≤ _ := abs_add _ _
      linarith
    obtain ⟨hclose, _⟩ := clampCast_close _ hWrange
    calc |((clamp_position (i32cast (c * ((qx : ℚ) - (c2x : ℚ))
          - -s * ((qy : ℚ) - (c2y : ℚ)) + (c2x : ℚ))) : Int) : ℚ) - (px : ℚ)|
        = |(((clamp_position (i32cast (c * ((qx : ℚ) - (c2x : ℚ))
            - -s * ((qy : ℚ) - (c2y : ℚ)) + (c2x : ℚ))) : Int) : ℚ)
          - (c * ((qx : ℚ) - (c2x : ℚ)) - -s * ((qy : ℚ) - (c2y : ℚ)) + (c2x : ℚ)))
          + (c * ((qx : ℚ) - (c2x : ℚ)) - -s * ((qy : ℚ) - (c2y : ℚ)) + (c2x : ℚ)
            - (px : ℚ))| := by ring_nf
      _ ≤ _ + _ := abs_add _ _
      _ ≤ 10 := by linarith
  · have hterm1 : |(s * s + c * c - 1) * dy| ≤ 1 / 8192 := by
      rw [abs_mul]
      calc |s * s + c * c - 1| * |dy| ≤ (1 / 1099511627776) * 134217728 :=
          mul_le_mul hsq hdyb (abs_nonneg _) (by norm_num)
        _ ≤ 1 / 8192 := by norm_num
    have hterm2b : |(-s) * (ex + gx)| ≤ 3 := by
      have h1 : |ex + gx| ≤ |ex| + |gx| := abs_add _ _
      have h2 := abs_le_one_mul (-s) (ex + gx) (by rwa [abs_neg])
      linarith
    have hterm3b : |c * (ey + gy)| ≤ 3 := by
      have h1 : |ey + gy| ≤ |ey| + |gy| := abs_add _ _
      have h2 := abs_le_one_mul c (ey + gy) hc
      linarith
    have hWident : -s * ((qx : ℚ) - (c2x : ℚ)) + c * ((qy : ℚ) - (c2y : ℚ)) + (c2y : ℚ)
        - (py : ℚ)
        = (s * s + c * c - 1) * dy + (-s) * (ex + gx) + c * (ey + gy) - gy := by
      rw [hqx_eq, hqy_eq, hc2x_eq, hc2y_eq, hdy_def]
      ring
    have hWdiff : |(-s) * ((qx : ℚ) - (c2x : ℚ)) + c * ((qy : ℚ) - (c2y : ℚ)) + (c2y : ℚ)
        - (py : ℚ)| ≤ 17 / 2 := by
      rw [show (-s) * ((qx : ℚ) - (c2x : ℚ)) + c * ((qy : ℚ) - (c2y : ℚ)) + (c2y : ℚ)
          - (py : ℚ) = -s * ((qx : ℚ) - (c2x : ℚ)) + c * ((qy : ℚ) - (c2y : ℚ)) + (c2y : ℚ)
          - (py : ℚ) from by ring, hWident]
      have h4 := habs4 ((s * s + c * c - 1) * dy) ((-s) * (ex + gx)) (c * (ey + gy)) gy
      linarith
    have hWrange : |(-s) * ((qx : ℚ) - (c2x : ℚ)) + c * ((qy : ℚ) - (c2y : ℚ)) + (c2y : ℚ)|
        ≤ 1073741823 := by
      have h1 : |(-s) * ((qx : ℚ) - (c2x : ℚ)) + c * ((qy : ℚ) - (c2y : ℚ)) + (c2y : ℚ)|
          ≤ |(-s) * ((qx : ℚ) - (c2x : ℚ)) + c * ((qy : ℚ) - (c2y : ℚ)) + (c2y : ℚ)
            - (py : ℚ)| + |(py : ℚ)| := by
        calc |(-s) * ((qx : ℚ) - (c2x : ℚ)) + c * ((qy : ℚ) - (c2y : ℚ)) + (c2y : ℚ)|
            = |((-s) * ((qx : ℚ) - (c2x : ℚ)) + c * ((qy : ℚ) - (c2y : ℚ)) + (c2y : ℚ)
              - (py : ℚ)) + (py : ℚ)| := by ring_nf
          _ ≤ _ := abs_add _ _
      linarith
    obtain ⟨hclose, _⟩ := clampCast_close _ hWrange
    calc |((clamp_position (i32cast ((-s) * ((qx : ℚ) - (c2x : ℚ))
          + c * ((qy : ℚ) - (c2y : ℚ)) + (c2y : ℚ))) : Int) : ℚ) - (py : ℚ)|
        = |(((clamp_position (i32cast ((-s) * ((qx : ℚ) - (c2x : ℚ))
            + c * ((qy : ℚ) - (c2y : ℚ)) + (c2y : ℚ))) : Int) : ℚ)
          - ((-s) * ((qx : ℚ) - (c2x : ℚ)) + c * ((qy : ℚ) - (c2y : ℚ)) + (c2y : ℚ)))
          + ((-s) * ((qx : ℚ) - (c2x : ℚ)) + c * ((qy : ℚ) - (c2y : ℚ)) + (c2y : ℚ)
            - (py : ℚ))| := by ring_nf
      _ ≤ _ + _ := abs_add _ _
      _ ≤ 10 := by linarith

/-- One corner of the first rotation: with all coordinates within `2^26`,
both stored coordinates are within one unit of the exact rotated values. -/
theorem rot1_close (s c : ℚ) (hs : |s| ≤ 1) (hc : |c| ≤ 1) (px py cx cy : Int)
    (hpx : |(px : ℚ)| ≤ 67108864) (hpy : |(py : ℚ)| ≤ 67108864)
    (hcx : |(cx : ℚ)| ≤ 67108864) (hcy : |(cy : ℚ)| ≤ 67108864) :
    |((Point.new (i32cast (c * ((px : ℚ) - (cx : ℚ)) - s * ((py : ℚ) - (cy : ℚ)) + (cx : ℚ)))
        (i32cast (s * ((px : ℚ) - (cx : ℚ)) + c * ((py : ℚ) - (cy : ℚ)) + (cy : ℚ)))).x : ℚ)
      - (c * ((px : ℚ) - (cx : ℚ)) - s * ((py : ℚ) - (cy : ℚ)) + (cx : ℚ))| < 1 ∧
    |((Point.new (i32cast (c * ((px : ℚ) - (cx : ℚ)) - s * ((py : ℚ) - (cy : ℚ)) + (cx : ℚ)))
        (i32cast (s * ((px : ℚ) - (cx : ℚ)) + c * ((py : ℚ) - (cy : ℚ)) + (cy : ℚ)))).y : ℚ)
      - (s * ((px : ℚ) - (cx : ℚ)) + c * ((py : ℚ) - (cy : ℚ)) + (cy : ℚ))| < 1 := by
  have hdx : |(px : ℚ) - (cx : ℚ)| ≤ 134217728 := by
    have h1 : |(px : ℚ) - (cx : ℚ)| ≤ |(px : ℚ)| + |(cx : ℚ)| := abs_sub _ _
    linarith
  have hdy : |(py : ℚ) - (cy : ℚ)| ≤ 134217728 := by
    have h1 : |(py : ℚ) - (cy : ℚ)| ≤ |(py : ℚ)| + |(cy : ℚ)| := abs_sub _ _
    linarith
  constructor
  · rw [Point.new_x]
    refine (clampCast_close _ ?_).1
    have := rot_sub_bound s c ((px : ℚ) - (cx : ℚ)) ((py : ℚ) - (cy : ℚ)) (cx : ℚ)
      134217728 67108864 hs hc hdx hdy hcx
    linarith
  · rw [Point.new_y]
    refine (clampCast_close _ ?_).1
    have := rot_add_bound s c ((px : ℚ) - (cx : ℚ)) ((py : ℚ) - (cy : ℚ)) (cy : ℚ)
      134217728 67108864 hs hc hdx hdy hcy
    linarith

/-- C6 amended: `rotate(θ)` rotates the four corners about the current center
by the standard 2-D rotation matrix (coordinates truncated back to integers)
and stores the argument θ itself as the new angle — it neither accumulates
onto the previous angle nor reduces it modulo 2π; and `rotate(θ)` followed by
`rotate(-θ)` restores the original corner set within rounding tolerance: for
every sine/cosine pair with magnitudes at most one whose squares sum to 1
within `2^(-40)` (as every `f64` sine/cosine pair does) and every rectangle
with corner coordinates within `2^26`, each corner coordinate returns to
within 10 units of its original value. -/
theorem rotate_round_trip_tolerance (r : PhysRect) (theta s c : ℚ)
    (hs : |s| ≤ 1) (hc : |c| ≤ 1)
    (hsq : |s * s + c * c - 1| ≤ 1 / 1099511627776)
    (hb0x : |r.p0.x| ≤ 67108864) (hb0y : |r.p0.y| ≤ 67108864)
    (hb1x : |r.p1.x| ≤ 67108864) (hb1y : |r.p1.y| ≤ 67108864)
    (hb2x : |r.p2.x| ≤ 67108864) (hb2y : |r.p2.y| ≤ 67108864)
    (hb3x : |r.p3.x| ≤ 67108864) (hb3y : |r.p3.y| ≤ 67108864) :
    (|(((r.rotate theta s c).rotate (-theta) (-s) c).p0.x : ℚ) - (r.p0.x : ℚ)| ≤ 10 ∧
      |(((r.rotate theta s c).rotate (-theta) (-s) c).p0.y : ℚ) - (r.p0.y : ℚ)| ≤ 10) ∧
    (|(((r.rotate theta s c).rotate (-theta) (-s) c).p1.x : ℚ) - (r.p1.x : ℚ)| ≤ 10 ∧
      |(((r.rotate theta s c).rotate (-theta) (-s) c).p1.y : ℚ) - (r.p1.y : ℚ)| ≤ 10) ∧
    (|(((r.rotate theta s c).rotate (-theta) (-s) c).p2.x : ℚ) - (r.p2.x : ℚ)| ≤ 10 ∧
      |(((r.rotate theta s c).rotate (-theta) (-s) c).p2.y : ℚ) - (r.p2.y : ℚ)| ≤ 10) ∧
    (|(((r.rotate theta s c).rotate (-theta) (-s) c).p3.x : ℚ) - (r.p3.x : ℚ)| ≤ 10 ∧
      |(((r.rotate theta s c).rotate (-theta) (-s) c).p3.y : ℚ) - (r.p3.y : ℚ)| ≤ 10) ∧
    (r.rotate theta s c).theta = theta ∧
    ((r.rotate theta s c).rotate (-theta) (-s) c).theta = -theta := by
  obtain ⟨c1x, hc1x_def⟩ : ∃ t, (r.p0.x + r.p2.x).tdiv 2 = t := ⟨_, rfl⟩
  obtain ⟨c1y, hc1y_def⟩ : ∃ t, (r.p0.y + r.p2.y).tdiv 2 = t := ⟨_, rfl⟩
  have e1x := tdiv_two_err (r.p0.x + r.p2.x)
  have e1y := tdiv_two_err (r.p0.y + r.p2.y)
  rw [hc1x_def] at e1x
  rw [hc1y_def] at e1y
  have hc1xb : |c1x| ≤ 67108864 := by
    rw [abs_le] at *
    omega
  have hc1yb : |c1y| ≤ 67108864 := by
    rw [abs_le] at *
    omega
  have hcen : r.center = ⟨c1x, c1y⟩ := by
    unfold PhysRect.center Point.new
    rw [hc1x_def, hc1y_def,
      clamp_position_eq_self _ (le_trans hc1xb (by norm_num)),
      clamp_position_eq_self _ (le_trans hc1yb (by norm_num))]
  have cb0x : |((r.p0.x : Int) : ℚ)| ≤ 67108864 := by exact_mod_cast hb0x
  have cb0y : |((r.p0.y : Int) : ℚ)| ≤ 67108864 := by exact_mod_cast hb0y
  have cb1x : |((r.p1.x : Int) : ℚ)| ≤ 67108864 := by exact_mod_cast hb1x
  have cb1y : |((r.p1.y : Int) : ℚ)| ≤ 67108864 := by exact_mod_cast hb1y
  have cb2x : |((r.p2.x : Int) : ℚ)| ≤ 67108864 := by exact_mod_cast hb2x
  have cb2y : |((r.p2.y : Int) : ℚ)| ≤ 67108864 := by exact_mod_cast hb2y
  have cb3x : |((r.p3.x : Int) : ℚ)| ≤ 67108864 := by exact_mod_cast hb3x
  have cb3y : |((r.p3.y : Int) : ℚ)| ≤ 67108864 := by exact_mod_cast hb3y
  have cbc1x : |((c1x : Int) : ℚ)| ≤ 67108864 := by exact_mod_cast hc1xb
  have cbc1y : |((c1y : Int) : ℚ)| ≤ 67108864 := by exact_mod_cast hc1yb
  have hr0 : (r.rotate theta s c).p0 = Point.new
      (i32cast (c * ((r.p0.x : ℚ) - (c1x : ℚ)) - s * ((r.p0.y : ℚ) - (c1y : ℚ)) + (c1x : ℚ)))
      (i32cast (s * ((r.p0.x : ℚ) - (c1x : ℚ)) + c * ((r.p0.y : ℚ) - (c1y : ℚ)) + (c1y : ℚ))) := by
    rw [PhysRect.rotate_p0, hcen]
  have hr1 : (r.rotate theta s c).p1 = Point.new
      (i32cast (c * ((r.p1.x : ℚ) - (c1x : ℚ)) - s * ((r.p1.y : ℚ) - (c1y : ℚ)) + (c1x : ℚ)))
      (i32cast (s * ((r.p1.x : ℚ) - (c1x : ℚ)) + c * ((r.p1.y : ℚ) - (c1y : ℚ)) + (c1y : ℚ))) := by
    rw [PhysRect.rotate_p1, hcen]
  have hr2 : (r.rotate theta s c).p2 = Point.new
      (i32cast (c * ((r.p2.x : ℚ) - (c1x : ℚ)) - s * ((r.p2.y : ℚ) - (c1y : ℚ)) + (c1x : ℚ)))
      (i32cast (s * ((r.p2.x : ℚ) - (c1x : ℚ)) + c * ((r.p2.y : ℚ) - (c1y : ℚ)) + (c1y : ℚ))) := by
    rw [PhysRect.rotate_p2, hcen]
  have hr3 : (r.rotate theta s c).p3 = Point.new
      (i32cast (c * ((r.p3.x : ℚ) - (c1x : ℚ)) - s * ((r.p3.y : ℚ) - (c1y : ℚ)) + (c1x : ℚ)))
      (i32cast (s * ((r.p3.x : ℚ) - (c1x : ℚ)) + c * ((r.p3.y : ℚ) - (c1y : ℚ)) + (c1y : ℚ))) := by
    rw [PhysRect.rotate_p3, hcen]
  have herr0 := rot1_close s c hs hc r.p0.x r.p0.y c1x c1y cb0x cb0y cbc1x cbc1y
  have herr1 := rot1_close s c hs hc r.p1.x r.p1.y c1x c1y cb1x cb1y cbc1x cbc1y
  have herr2 := rot1_close s c hs hc r.p2.x r.p2.y c1x c1y cb2x cb2y cbc1x cbc1y
  have herr3 := rot1_close s c hs hc r.p3.x r.p3.y c1x c1y cb3x cb3y cbc1x cbc1y
  have hqx0 : |(((r.rotate theta s c).p0.x : Int) : ℚ)
      - (c * ((r.p0.x : ℚ) - (c1x : ℚ)) - s * ((r.p0.y : ℚ) - (c1y : ℚ)) + (c1x : ℚ))| < 1 := by
    rw [hr0]
    exact herr0.1
  have hqy0 : |(((r.rotate theta s c).p0.y : Int) : ℚ)
      - (s * ((r.p0.x : ℚ) - (c1x : ℚ)) + c * ((r.p0.y : ℚ) - (c1y : ℚ)) + (c1y : ℚ))| < 1 := by
    rw [hr0]
    exact herr0.2
  have hqx1 : |(((r.rotate theta s c).p1.x : Int) : ℚ)
      - (c * ((r.p1.x : ℚ) - (c1x : ℚ)) - s * ((r.p1.y : ℚ) - (c1y : ℚ)) + (c1x : ℚ))| < 1 := by
    rw [hr1]
    exact herr1.1
  have hqy1 : |(((r.rotate theta s c).p1.y : Int) : ℚ)
      - (s * ((r.p1.x : ℚ) - (c1x : ℚ)) + c * ((r.p1.y : ℚ) - (c1y : ℚ)) + (c1y : ℚ))| < 1 := by
    rw [hr1]
    exact herr1.2
  have hqx2 : |(((r.rotate theta s c).p2.x : Int) : ℚ)
      - (c * ((r.p2.x : ℚ) - (c1x : ℚ)) - s * ((r.p2.y : ℚ) - (c1y : ℚ)) + (c1x : ℚ))| < 1 := by
    rw [hr2]
    exact herr2.1
  have hqy2 : |(((r.rotate theta s c).p2.y : Int) : ℚ)
      - (s * ((r.p2.x : ℚ) - (c1x : ℚ)) + c * ((r.p2.y : ℚ) - (c1y : ℚ)) + (c1y : ℚ))| < 1 := by
    rw [hr2]
    exact herr2.2
  have hqx3 : |(((r.rotate theta s c).p3.x : Int) : ℚ)
      - (c * ((r.p3.x : ℚ) - (c1x : ℚ)) - s * ((r.p3.y : ℚ) - (c1y : ℚ)) + (c1x : ℚ))| < 1 := by
    rw [hr3]
    exact herr3.1
  have hqy3 : |(((r.rotate theta s c).p3.y : Int) : ℚ)
      - (s * ((r.p3.x : ℚ) - (c1x : ℚ)) + c * ((r.p3.y : ℚ) - (c1y : ℚ)) + (c1y : ℚ))| < 1 := by
    rw [hr3]
    exact herr3.2
  -- second center, drift at most 2 from the first
  have hρx : |((r.p0.x + r.p2.x - 2 * c1x : Int) : ℚ)| ≤ 1 := by
    have h1 : |r.p0.x + r.p2.x - 2 * c1x| ≤ 1 := by
      rw [abs_le] at *
      omega
    exact_mod_cast h1
  have hρy : |((r.p0.y + r.p2.y - 2 * c1y : Int) : ℚ)| ≤ 1 := by
    have h1 : |r.p0.y + r.p2.y - 2 * c1y| ≤ 1 := by
      rw [abs_le] at *
      omega
    exact_mod_cast h1
  have hsumx : |(((r.rotate theta s c).p0.x : Int) : ℚ)
      + (((r.rotate theta s c).p2.x : Int) : ℚ) - 2 * (c1x : ℚ)| < 4 := by
    have hVsum : (c * ((r.p0.x : ℚ) - (c1x : ℚ)) - s * ((r.p0.y : ℚ) - (c1y : ℚ)) + (c1x : ℚ))
        + (c * ((r.p2.x : ℚ) - (c1x : ℚ)) - s * ((r.p2.y : ℚ) - (c1y : ℚ)) + (c1x : ℚ))
        - 2 * (c1x : ℚ)
        = c * ((r.p0.x + r.p2.x - 2 * c1x : Int) : ℚ)
          - s * ((r.p0.y + r.p2.y - 2 * c1y : Int) : ℚ) := by
      push_cast
      ring
    have hVb : |(c * ((r.p0.x : ℚ) - (c1x : ℚ)) - s * ((r.p0.y : ℚ) - (c1y : ℚ)) + (c1x : ℚ))
        + (c * ((r.p2.x : ℚ) - (c1x : ℚ)) - s * ((r.p2.y : ℚ) - (c1y : ℚ)) + (c1x : ℚ))
        - 2 * (c1x : ℚ)| ≤ 2 := by
      rw [hVsum]
      have h1 := abs_le_one_mul c ((r.p0.x + r.p2.x - 2 * c1x : Int) : ℚ) hc
      have h2 := abs_le_one_mul s ((r.p0.y + r.p2.y - 2 * c1y : Int) : ℚ) hs
      have h3 : |c * ((r.p0.x + r.p2.x - 2 * c1x : Int) : ℚ)
          - s * ((r.p0.y + r.p2.y - 2 * c1y : Int) : ℚ)|
          ≤ |c * ((r.p0.x + r.p2.x - 2 * c1x : Int) : ℚ)|
            + |s * ((r.p0.y + r.p2.y - 2 * c1y : Int) : ℚ)| := abs_sub _ _
      linarith
    have hident : (((r.rotate theta s c).p0.x : Int) : ℚ)
        + (((r.rotate theta s c).p2.x : Int) : ℚ) - 2 * (c1x : ℚ)
        = ((((r.rotate theta s c).p0.x : Int) : ℚ)
            - (c * ((r.p0.x : ℚ) - (c1x : ℚ)) - s * ((r.p0.y : ℚ) - (c1y : ℚ)) + (c1x : ℚ)))
          + ((((r.rotate theta s c).p2.x : Int) : ℚ)
            - (c * ((r.p2.x : ℚ) - (c1x : ℚ)) - s * ((r.p2.y : ℚ) - (c1y : ℚ)) + (c1x : ℚ)))
          + ((c * ((r.p0.x : ℚ) - (c1x : ℚ)) - s * ((r.p0.y : ℚ) - (c1y : ℚ)) + (c1x : ℚ))
            + (c * ((r.p2.x : ℚ) - (c1x : ℚ)) - s * ((r.p2.y : ℚ) - (c1y : ℚ)) + (c1x : ℚ))
            - 2 * (c1x : ℚ)) := by
      ring
    have ha := abs_add
      (((((r.rotate theta s c).p0.x : Int) : ℚ)
          - (c * ((r.p0.x : ℚ) - (c1x : ℚ)) - s * ((r.p0.y : ℚ) - (c1y : ℚ)) + (c1x : ℚ)))
        + ((((r.rotate theta s c).p2.x : Int) : ℚ)
          - (c * ((r.p2.x : ℚ) - (c1x : ℚ)) - s * ((r.p2.y : ℚ) - (c1y : ℚ)) + (c1x : ℚ))))
      ((c * ((r.p0.x : ℚ) - (c1x : ℚ)) - s * ((r.p0.y : ℚ) - (c1y : ℚ)) + (c1x : ℚ))
        + (c * ((r.p2.x : ℚ) - (c1x : ℚ)) - s * ((r.p2.y : ℚ) - (c1y : ℚ)) + (c1x : ℚ))
        - 2 * (c1x : ℚ))
    have hb := abs_add
      ((((r.rotate theta s c).p0.x : Int) : ℚ)
        - (c * ((r.p0.x : ℚ) - (c1x : ℚ)) - s * ((r.p0.y : ℚ) - (c1y : ℚ)) + (c1x : ℚ)))
      ((((r.rotate theta s c).p2.x : Int) : ℚ)
        - (c * ((r.p2.x : ℚ) - (c1x : ℚ)) - s * ((r.p2.y : ℚ) - (c1y : ℚ)) + (c1x : ℚ)))
    rw [hident]
    linarith
  have hsumy : |(((r.rotate theta s c).p0.y : Int) : ℚ)
      + (((r.rotate theta s c).p2.y : Int) : ℚ) - 2 * (c1y : ℚ)| < 4 := by
    have hVsum : (s * ((r.p0.x : ℚ) - (c1x : ℚ)) + c * ((r.p0.y : ℚ) - (c1y : ℚ)) + (c1y : ℚ))
        + (s * ((r.p2.x : ℚ) - (c1x : ℚ)) + c * ((r.p2.y : ℚ) - (c1y : ℚ)) + (c1y : ℚ))
        - 2 * (c1y : ℚ)
        = s * ((r.p0.x + r.p2.x - 2 * c1x : Int) : ℚ)
          + c * ((r.p0.y + r.p2.y - 2 * c1y : Int) : ℚ) := by
      push_cast
      ring
    have hVb : |(s * ((r.p0.x : ℚ) - (c1x : ℚ)) + c * ((r.p0.y : ℚ) - (c1y : ℚ)) + (c1y : ℚ))
        + (s * ((r.p2.x : ℚ) - (c1x : ℚ)) + c * ((r.p2.y : ℚ) - (c1y : ℚ)) + (c1y : ℚ))
        - 2 * (c1y : ℚ)| ≤ 2 := by
      rw [hVsum]
      have h1 := abs_le_one_mul s ((r.p0.x + r.p2.x - 2 * c1x : Int) : ℚ) hs
      have h2 := abs_le_one_mul c ((r.p0.y + r.p2.y - 2 * c1y : Int) : ℚ) hc
      have h3 : |s * ((r.p0.x + r.p2.x - 2 * c1x : Int) : ℚ)
          + c * ((r.p0.y + r.p2.y - 2 * c1y : Int) : ℚ)|
          ≤ |s * ((r.p0.x + r.p2.x - 2 * c1x : Int) : ℚ)|
            + |c * ((r.p0.y + r.p2.y - 2 * c1y : Int) : ℚ)| := abs_add _ _
      linarith
    have hident : (((r.rotate theta s c).p0.y : Int) : ℚ)
        + (((r.rotate theta s c).p2.y : Int) : ℚ) - 2 * (c1y : ℚ)
        = ((((r.rotate theta s c).p0.y : Int) : ℚ)
            - (s * ((r.p0.x : ℚ) - (c1x : ℚ)) + c * ((r.p0.y : ℚ) - (c1y : ℚ)) + (c1y : ℚ)))
          + ((((r.rotate theta s c).p2.y : Int) : ℚ)
            - (s * ((r.p2.x : ℚ) - (c1x : ℚ)) + c * ((r.p2.y : ℚ) - (c1y : ℚ)) + (c1y : ℚ)))
          + ((s * ((r.p0.x : ℚ) - (c1x : ℚ)) + c * ((r.p0.y : ℚ) - (c1y : ℚ)) + (c1y : ℚ))
            + (s * ((r.p2.x : ℚ) - (c1x : ℚ)) + c * ((r.p2.y : ℚ) - (c1y : ℚ)) + (c1y : ℚ))
            - 2 * (c1y : ℚ)) := by
      ring
    have ha := abs_add
      (((((r.rotate theta s c).p0.y : Int) : ℚ)
          - (s * ((r.p0.x : ℚ) - (c1x : ℚ)) + c * ((r.p0.y : ℚ) - (c1y : ℚ)) + (c1y : ℚ)))
        + ((((r.rotate theta s c).p2.y : Int) : ℚ)
          - (s * ((r.p2.x : ℚ) - (c1x : ℚ)) + c * ((r.p2.y : ℚ) - (c1y : ℚ)) + (c1y : ℚ))))
      ((s * ((r.p0.x : ℚ) - (c1x : ℚ)) + c * ((r.p0.y : ℚ) - (c1y : ℚ)) + (c1y : ℚ))
        + (s * ((r.p2.x : ℚ) - (c1x : ℚ)) + c * ((r.p2.y : ℚ) - (c1y : ℚ)) + (c1y : ℚ))
        - 2 * (c1y : ℚ))
    have hb := abs_add
      ((((r.rotate theta s c).p0.y : Int) : ℚ)
        - (s * ((r.p0.x : ℚ) - (c1x : ℚ)) + c * ((r.p0.y : ℚ) - (c1y : ℚ)) + (c1y : ℚ)))
      ((((r.rotate theta s c).p2.y : Int) : ℚ)
        - (s * ((r.p2.x : ℚ) - (c1x : ℚ)) + c * ((r.p2.y : ℚ) - (c1y : ℚ)) + (c1y : ℚ)))
    rw [hident]
    linarith
  have hsumx_int : |(r.rotate theta s c).p0.x + (r.rotate theta s c).p2.x - 2 * c1x| ≤ 3 := by
    have h1 : |(((r.rotate theta s c).p0.x + (r.rotate theta s c).p2.x - 2 * c1x : Int) : ℚ)|
        < 4 := by
      push_cast
      convert hsumx using 2
    have h2 : |(r.rotate theta s c).p0.x + (r.rotate theta s c).p2.x - 2 * c1x| < 4 := by
      exact_mod_cast h1
    omega
  have hsumy_int : |(r.rotate theta s c).p0.y + (r.rotate theta s c).p2.y - 2 * c1y| ≤ 3 := by
    have h1 : |(((r.rotate theta s c).p0.y + (r.rotate theta s c).p2.y - 2 * c1y : Int) : ℚ)|
        < 4 := by
      push_cast
      convert hsumy using 2
    have h2 : |(r.rotate theta s c).p0.y + (r.rotate theta s c).p2.y - 2 * c1y| < 4 := by
      exact_mod_cast h1
    omega
  obtain ⟨c2x, hc2x_def⟩ :
      ∃ t, ((r.rotate theta s c).p0.x + (r.rotate theta s c).p2.x).tdiv 2 = t := ⟨_, rfl⟩
  obtain ⟨c2y, hc2y_def⟩ :
      ∃ t, ((r.rotate theta s c).p0.y + (r.rotate theta s c).p2.y).tdiv 2 = t := ⟨_, rfl⟩
  have e2x := tdiv_two_err ((r.rotate theta s c).p0.x + (r.rotate theta s c).p2.x)
  have e2y := tdiv_two_err ((r.rotate theta s c).p0.y + (r.rotate theta s c).p2.y)
  rw [hc2x_def] at e2x
  rw [hc2y_def] at e2y
  have hdriftx : |c1x - c2x| ≤ 2 := by
    rw [abs_le] at *
    omega
  have hdrifty : |c1y - c2y| ≤ 2 := by
    rw [abs_le] at *
    omega
  have hc2xb : |c2x| ≤ 67108866 := by
    rw [abs_le] at *
    omega
  have hc2yb : |c2y| ≤ 67108866 := by
    rw [abs_le] at *
    omega
  have hcen2 : (r.rotate theta s c).center = ⟨c2x, c2y⟩ := by
    unfold PhysRect.center Point.new
    rw [hc2x_def, hc2y_def,
      clamp_position_eq_self _ (le_trans hc2xb (by norm_num)),
      clamp_position_eq_self _ (le_trans hc2yb (by norm_num))]
  have hgx : |(c1x : ℚ) - (c2x : ℚ)| ≤ 2 := by exact_mod_cast hdriftx
  have hgy : |(c1y : ℚ) - (c2y : ℚ)| ≤ 2 := by exact_mod_cast hdrifty
  have hrt0 := round_trip_corner s c hs hc hsq r.p0.x r.p0.y c1x c1y c2x c2y
    (r.rotate theta s c).p0.x (r.rotate theta s c).p0.y
    cb0x cb0y cbc1x cbc1y hqx0 hqy0 hgx hgy
  have hrt1 := round_trip_corner s c hs hc hsq r.p1.x r.p1.y c1x c1y c2x c2y
    (r.rotate theta s c).p1.x (r.rotate theta s c).p1.y
    cb1x cb1y cbc1x cbc1y hqx1 hqy1 hgx hgy
  have hrt2 := round_trip_corner s c hs hc hsq r.p2.x r.p2.y c1x c1y c2x c2y
    (r.rotate theta s c).p2.x (r.rotate theta s c).p2.y
    cb2x cb2y cbc1x cbc1y hqx2 hqy2 hgx hgy
  have hrt3 := round_trip_corner s c hs hc hsq r.p3.x r.p3.y c1x c1y c2x c2y
    (r.rotate theta s c).p3.x (r.rotate theta s c).p3.y
    cb3x cb3y cbc1x cbc1y hqx3 hqy3 hgx hgy
  have hF0 : ((r.rotate theta s c).rotate (-theta) (-s) c).p0 = Point.new
      (i32cast (c * (((r.rotate theta s c).p0.x : ℚ) - (c2x : ℚ))
        - -s * (((r.rotate theta s c).p0.y : ℚ) - (c2y : ℚ)) + (c2x : ℚ)))
      (i32cast (-s * (((r.rotate theta s c).p0.x : ℚ) - (c2x : ℚ))
        + c * (((r.rotate theta s c).p0.y : ℚ) - (c2y : ℚ)) + (c2y : ℚ))) := by
    rw [PhysRect.rotate_p0, hcen2]
  have hF1 : ((r.rotate theta s c).rotate (-theta) (-s) c).p1 = Point.new
      (i32cast (c * (((r.rotate theta s c).p1.x : ℚ) - (c2x : ℚ))
        - -s * (((r.rotate theta s c).p1.y : ℚ) - (c2y : ℚ)) + (c2x : ℚ)))
      (i32cast (-s * (((r.rotate theta s c).p1.x : ℚ) - (c2x : ℚ))
        + c * (((r.rotate theta s c).p1.y : ℚ) - (c2y : ℚ)) + (c2y : ℚ))) := by
    rw [PhysRect.rotate_p1, hcen2]
  have hF2 : ((r.rotate theta s c).rotate (-theta) (-s) c).p2 = Point.new
      (i32cast (c * (((r.rotate theta s c).p2.x : ℚ) - (c2x : ℚ))
        - -s * (((r.rotate theta s c).p2.y : ℚ) - (c2y : ℚ)) + (c2x : ℚ)))
      (i32cast (-s * (((r.rotate theta s c).p2.x : ℚ) - (c2x : ℚ))
        + c * (((r.rotate theta s c).p2.y : ℚ) - (c2y : ℚ)) + (c2y : ℚ))) := by
    rw [PhysRect.rotate_p2, hcen2]
  have hF3 : ((r.rotate theta s c).rotate (-theta) (-s) c).p3 = Point.new
      (i32cast (c * (((r.rotate theta s c).p3.x : ℚ) - (c2x : ℚ))
        - -s * (((r.rotate theta s c).p3.y : ℚ) - (c2y : ℚ)) + (c2x : ℚ)))
      (i32cast (-s * (((r.rotate theta s c).p3.x : ℚ) - (c2x : ℚ))
        + c * (((r.rotate theta s c).p3.y : ℚ) - (c2y : ℚ)) + (c2y : ℚ))) := by
    rw [PhysRect.rotate_p3, hcen2]
  refine ⟨⟨?_, ?_⟩, ⟨?_, ?_⟩, ⟨?_, ?_⟩, ⟨?_, ?_⟩, rfl, rfl⟩
  · rw [hF0, Point.new_x]
    exact hrt0.1
  · rw [hF0, Point.new_y]
    exact hrt0.2
  · rw [hF1, Point.new_x]
    exact hrt1.1
  · rw [hF1, Point.new_y]
    exact hrt1.2
  · rw [hF2, Point.new_x]
    exact hrt2.1
  · rw [hF2, Point.new_y]
    exact hrt2.2
  · rw [hF3, Point.new_x]
    exact hrt3.1
  · rw [hF3, Point.new_y]
    exact hrt3.2

/-- Witness for the round-trip tolerance theorem at theta = 3 with the exact
unit-circle rational pair s = 28202000/199838201, c = -197838201/199838201
(within 10^(-5) of sin 3 and cos 3) on the rectangle PhysRect::new(0,0,2,2). -/
theorem rotate_round_trip_tolerance_inst :
    |((((PhysRect.new 0 0 2 2).rotate 3 (28202000 / 199838201)
          (-197838201 / 199838201)).rotate (-3) (-(28202000 / 199838201))
          (-197838201 / 199838201)).p0.x : ℚ)
        - (((PhysRect.new 0 0 2 2).p0.x : Int) : ℚ)| ≤ 10 ∧
    ((PhysRect.new 0 0 2 2).rotate 3 (28202000 / 199838201)
        (-197838201 / 199838201)).theta = 3 := by
  have h := rotate_round_trip_tolerance (PhysRect.new 0 0 2 2) 3
    (28202000 / 199838201) (-197838201 / 199838201)
    (by rw [abs_le]; constructor <;> norm_num)
    (by rw [abs_le]; constructor <;> norm_num)
    (by norm_num)
    (by decide) (by decide) (by decide) (by decide)
    (by decide) (by decide) (by decide) (by decide)
  exact ⟨h.1.1, h.2.2.2.2.1⟩

end InfRunner
